import Mathlib

/-!
# SpatialEventTracer: a shallow embedding

Embedding of `SpatialGDK/Private/Interop/Connection/SpatialEventTracer.cpp`.

* Objects of class `SpatialEventTracer` live in `World.Tracers`, addressed by a
  natural number (the object's identity, `this`).
* The global `EventTracerGuard` is `World.Guard`.
* Calls into the worker SDK (`c_trace.h`, `c_io.h`) and the platform file layer
  are recorded, oldest first, in `World.Calls`; `UE_LOG` lines go to `World.Log`.
* What those external calls answer is supplied by `Env`.
* The engine invokes `TraceCallback` on its own schedule, so a callback is a
  step of its own and is not folded into `TraceEvent`.
-/

namespace SpatialGDK

/-! ## Worker SDK data -/

/-- A `Trace_SpanId`: sixteen bytes. -/
structure Trace_SpanId where
  data : List (Fin 256)
  size_eq : data.length = 16
deriving DecidableEq

/-- The span id whose first fifteen bytes are zero and whose last byte is `b`. -/
def Trace_SpanId.ofByte (b : Fin 256) : Trace_SpanId :=
  ⟨List.replicate 15 0 ++ [b], by simp⟩

/-- A `Trace_Event`; `data` holds the string fields of its `Trace_EventData`. -/
structure Trace_Event where
  span_id : Trace_SpanId
  unix_timestamp_millis : Nat
  message : String
  type : String
  data : List (String × String)
deriving DecidableEq

/-- A `Trace_Span`; `cause_count` is the length of `causes`. -/
structure Trace_Span where
  id : Trace_SpanId
  causes : List Trace_SpanId
deriving DecidableEq

/-- A `Trace_Item`, by `item_type`. -/
inductive Trace_Item where
  | event (e : Trace_Event)
  | span (s : Trace_Span)
  | other (item_type : Nat)
deriving DecidableEq

/-! ## Engine reflection data read by `TraceEvent` -/

/-- An object behind an object property: its name and, when it is an actor,
the text of its translation. -/
structure UObject where
  Name : String
  ActorTranslation : Option String
deriving DecidableEq

/-- The value of one reflected property, by the three cases `TraceEvent`
distinguishes. -/
inductive PropertyValue where
  | Str (v : String)
  | Object (o : Option UObject)
  | Default (exported : String)
deriving DecidableEq

structure Property where
  Name : String
  Value : PropertyValue
deriving DecidableEq

/-- An `FEventMessage` together with the properties its `UStruct` iterates. -/
structure FEventMessage where
  Type_ : String
  Message : String
  Properties : List Property
deriving DecidableEq

/-! ## The span id store -/

/-- An `EntityComponentId`. -/
structure EntityComponentId where
  EntityId : Nat
  ComponentId : Nat
deriving DecidableEq

/-- A `Worker_ComponentUpdateOp` as far as the tracer reads it: the entity, the
component, the span id carried by the op and the field ids the update touches. -/
structure ComponentUpdateOp where
  entity_id : Nat
  component_id : Nat
  span_id : Trace_SpanId
  fields : List Nat

/-- A `SpatialSpanIdStore::FieldSpanIdUpdate`. `ComponentUpdate` puts `NewSpanId`
and `OldSpanId` into a `TArray<Trace_SpanId>`, so both are plain span ids. -/
structure FieldSpanIdUpdate where
  FieldId : Nat
  NewSpanId : Trace_SpanId
  OldSpanId : Trace_SpanId
deriving DecidableEq

/-- Modelled from the spec: `SpatialSpanIdStore`, whose source is not among the
files. Per (entity component, field) there is zero or one entry, the span that
most recently wrote the field. -/
structure SpatialSpanIdStore where
  Entries : EntityComponentId → Nat → Option Trace_SpanId

/-! ## Tracer objects and the world -/

/-- The data members of a `SpatialEventTracer`. `Stream` and `EventTracer` are
pointers: `none` is `nullptr`. -/
structure SpatialEventTracer where
  WorkerId : String
  FolderPath : String
  Stream : Option Nat
  EventTracer : Option Nat
  bEnabled : Bool
  BytesWrittenToStream : Nat
  MaxFileSize : Nat
  SpanIdStore : SpatialSpanIdStore

/-- One call that leaves the tracer: to the worker SDK or the platform file
layer. -/
inductive Call where
  | Trace_EventTracer_Create (result : Nat)
  | Trace_EventTracer_Enable (tracer : Option Nat)
  | Trace_EventTracer_Disable (tracer : Option Nat)
  | Trace_EventTracer_Destroy (tracer : Option Nat)
  | Trace_EventTracer_AddSpan (tracer : Option Nat) (causes : List Trace_SpanId) (result : Trace_SpanId)
  | Trace_EventTracer_AddEvent (tracer : Option Nat) (event : Trace_Event)
  | Trace_EventTracer_SetActiveSpanId (tracer : Option Nat) (span : Trace_SpanId)
  | Trace_EventTracer_ClearActiveSpanId (tracer : Option Nat)
  | CreateDirectoryTree (path : String) (result : Bool)
  | Io_CreateFileStream (path : String) (result : Nat)
  | Io_Stream_Destroy (stream : Nat)
  | Trace_SerializeItemToStream (stream : Nat) (item : Trace_Item) (size : Nat)
deriving DecidableEq

/-- Everything the tracer code reads or changes. -/
structure World where
  /-- The member `EventTracerGuard.EventTracer`: the registered tracer object. -/
  Guard : Option Nat
  /-- The tracer objects, by identity. -/
  Tracers : Nat → SpatialEventTracer
  /-- The ambient active span of each engine, by engine handle. -/
  ActiveSpanId : Nat → Option Trace_SpanId
  /-- How many spans the engines have handed out. -/
  SpansAllocated : Nat
  /-- The next unused engine or stream handle. -/
  NextHandle : Nat
  Calls : List Call
  Log : List String

/-- What the surroundings answer: the worker SDK, the platform, and the
declarations of this repository that `SpatialEventTracer.cpp` uses but that are
not among the files. -/
structure Env where
  /-- Width in bits of the unsigned type of `BytesWrittenToStream`, in which
  `BytesWrittenToStream + ItemSize` is computed (declared in the class header). -/
  CounterBits : Nat
  Trace_GetSerializedItemSize : Trace_Item → Nat
  Trace_SerializeItemToStream : Nat → Trace_Item → Nat → Int
  Trace_GetLastError : String
  /-- The id the engine gives to the span it allocates when `n` spans have been
  allocated before it. -/
  Trace_EventTracer_AddSpan : Nat → List Trace_SpanId → Trace_SpanId
  Trace_EventTracer_ShouldSampleEvent : Trace_Event → Bool
  ProjectSavedDir : String
  /-- The constructor `FEventMergeComponentFieldUpdate(EntityId, ComponentId, FieldId)`. -/
  FEventMergeComponentFieldUpdate : Nat → Nat → Nat → FEventMessage
  /-- The span id the store hands out where a field has no entry. -/
  AbsentSpanId : Trace_SpanId

/-- Replace one tracer object. -/
def World.setTracer (w : World) (self : Nat) (t : SpatialEventTracer) : World :=
  { w with Tracers := Function.update w.Tracers self t }

/-- Record one outgoing call. -/
def World.call (w : World) (c : Call) : World :=
  { w with Calls := w.Calls ++ [c] }

/-- Record one `UE_LOG` line. -/
def World.log (w : World) (line : String) : World :=
  { w with Log := w.Log ++ [line] }

/-! ## `SpanIdToString` -/

/-- One hexadecimal digit, lower case, as `sprintf` prints it. -/
def hexDigit (d : Nat) : Char :=
  if d < 10 then Char.ofNat (48 + d) else Char.ofNat (87 + d)

/-- The characters `sprintf(b, "%0x", x)` produces for a byte: the flag `0`
comes with no field width, so nothing is padded. -/
def sprintf_0x (x : Nat) : List Char :=
  if x < 16 then [hexDigit x] else [hexDigit (x / 16), hexDigit (x % 16)]

/-- The function `SpatialEventTracer::SpanIdToString`. -/
def SpanIdToString (SpanId : Trace_SpanId) : String :=
  String.mk (SpanId.data.flatMap fun b => sprintf_0x b.val)

/-! ## `TraceCallback` -/

/-- The value of the `uint32_t ItemSize`. -/
def ItemSizeOf (env : Env) (Item : Trace_Item) : Nat :=
  env.Trace_GetSerializedItemSize Item % 2 ^ 32

/-- The value of `BytesWrittenToStream + ItemSize` in the counter's unsigned type. -/
def counterAdd (env : Env) (Bytes ItemSize : Nat) : Nat :=
  (Bytes + ItemSize) % 2 ^ env.CounterBits

/-- The line the `DEBUG_EVENT_TRACING` block logs for an item, if any. -/
def debugLine (Item : Trace_Item) : Option String :=
  match Item with
  | .event Event => some ("Event: " ++ Event.type ++ " SpanId: " ++ SpanIdToString Event.span_id)
  | .span Span =>
      some ("SpanId: " ++ SpanIdToString Span.id ++ " Causes: "
        ++ ", ".intercalate (Span.causes.map SpanIdToString))
  | .other _ => none

/-- The function `SpatialEventTracer::TraceCallback`. -/
def TraceCallback (env : Env) (w : World) (Item : Trace_Item) : World :=
  match w.Guard with
  | none => w
  | some self =>
    let EventTracer := w.Tracers self
    if !EventTracer.bEnabled then w
    else
      match EventTracer.Stream with
      | none => w.log "Ensure condition failed: EventTracer->Stream.Get() != nullptr"
      | some Stream =>
        let w1 := match debugLine Item with
          | some line => w.log line
          | none => w
        let ItemSize := ItemSizeOf env Item
        if counterAdd env EventTracer.BytesWrittenToStream ItemSize ≤ EventTracer.MaxFileSize then
          let w2 := w1.setTracer self
            { EventTracer with
              BytesWrittenToStream := counterAdd env EventTracer.BytesWrittenToStream ItemSize }
          let w3 := w2.call (.Trace_SerializeItemToStream Stream Item ItemSize)
          let Code := env.Trace_SerializeItemToStream Stream Item ItemSize
          if Code ≠ 1 then
            w3.log ("Failed to serialize to with error code " ++ toString Code
              ++ " (" ++ env.Trace_GetLastError)
          else w3
        else w1

/-! ## `Enable` and `Disable` -/

/-- Give a `TUniquePtr` stream a new value: the stream it held is destroyed by
`StreamDeleter`. -/
def releaseStream (w : World) (old : Option Nat) : World :=
  match old with
  | some s => w.call (.Io_Stream_Destroy s)
  | none => w

/-- The function `SpatialEventTracer::Enable`. `Now` is the text of `FDateTime::Now()` and
`DirOk` the answer of `CreateDirectoryTree`. -/
def Enable (env : Env) (w : World) (self : Nat) (FileName Now : String) (DirOk : Bool) : World :=
  let w := { w with Guard := some self }
  let Engine := w.NextHandle
  let w := { w with NextHandle := w.NextHandle + 1 }
  let w := w.call (.Trace_EventTracer_Create Engine)
  let w := w.setTracer self { w.Tracers self with EventTracer := some Engine }
  let w := w.call (.Trace_EventTracer_Enable (some Engine))
  let w := w.setTracer self { w.Tracers self with bEnabled := true }
  let w := w.log "Spatial event tracing enabled."
  let FolderPath := env.ProjectSavedDir ++ "/" ++ "EventTracing"
  let w := w.setTracer self { w.Tracers self with FolderPath := FolderPath }
  let FullFileName := "EventTrace_" ++ FileName ++ "_" ++ Now ++ ".trace"
  let FilePath := FolderPath ++ "/" ++ FullFileName
  let w := w.call (.CreateDirectoryTree FolderPath DirOk)
  if DirOk then
    let w := w.log ("Capturing trace to " ++ FilePath ++ ".")
    let NewStream := w.NextHandle
    let w := { w with NextHandle := w.NextHandle + 1 }
    let w := w.call (.Io_CreateFileStream FilePath NewStream)
    let w := releaseStream w (w.Tracers self).Stream
    w.setTracer self { w.Tracers self with Stream := some NewStream }
  else w

/-- The function `SpatialEventTracer::Disable`. -/
def Disable (w : World) (self : Nat) : World :=
  let w := w.log "Spatial event tracing disabled."
  let w := { w with Guard := none }
  let w := w.call (.Trace_EventTracer_Disable (w.Tracers self).EventTracer)
  let w := w.setTracer self { w.Tracers self with bEnabled := false }
  let w := releaseStream w (w.Tracers self).Stream
  let w := w.setTracer self { w.Tracers self with Stream := none }
  w.call (.Trace_EventTracer_Destroy (w.Tracers self).EventTracer)

/-- The destructor `SpatialEventTracer::~SpatialEventTracer`, which calls
`Disable` only when `IsEnabled()`. -/
def SpatialEventTracer.destruct (w : World) (self : Nat) : World :=
  if (w.Tracers self).bEnabled then Disable w self else w

/-! ## `TraceEvent` -/

/-- The string fields `TraceEvent` adds for one property (every property has
`ArrayDim == 1`): a string property gives its value, an object property the
object's name, then its position when it is an actor, or `Null`, and any other
property its exported text. -/
def propertyFields (p : Property) : List (String × String) :=
  match p.Value with
  | .Str v => [(p.Name, v)]
  | .Object (some Object) =>
      (p.Name, Object.Name) ::
        (match Object.ActorTranslation with
          | some t => [(p.Name ++ "Position", t)]
          | none => [])
  | .Object none => [(p.Name, "Null")]
  | .Default exported => [(p.Name, exported)]

/-- The causes `TraceEvent` passes to `Trace_EventTracer_AddSpan`: the array when
`Causes.Num() > 0`, and `nullptr` with count 0 otherwise. -/
def causesPassed (Causes : List Trace_SpanId) : List Trace_SpanId :=
  if 0 < Causes.length then Causes else []

/-- The function `SpatialEventTracer::TraceEvent`: the returned optional and the
world after the call. -/
def TraceEvent (env : Env) (w : World) (self : Nat) (EventMessage : FEventMessage)
    (Causes : List Trace_SpanId) : Option Trace_SpanId × World :=
  if !(w.Tracers self).bEnabled then (none, w)
  else
    let CurrentSpanId := env.Trace_EventTracer_AddSpan w.SpansAllocated (causesPassed Causes)
    let w1 := { w with SpansAllocated := w.SpansAllocated + 1 }
    let w2 := w1.call
      (.Trace_EventTracer_AddSpan (w.Tracers self).EventTracer (causesPassed Causes) CurrentSpanId)
    let TraceEvent : Trace_Event :=
      { span_id := CurrentSpanId, unix_timestamp_millis := 0,
        message := EventMessage.Message, type := EventMessage.Type_, data := [] }
    if !env.Trace_EventTracer_ShouldSampleEvent TraceEvent then (none, w2)
    else
      let EventData := EventMessage.Properties.flatMap propertyFields
      let w3 := w2.call
        (.Trace_EventTracer_AddEvent (w.Tracers self).EventTracer { TraceEvent with data := EventData })
      (some CurrentSpanId, w3)

/-! ## The span id store and `ComponentUpdate` -/

/-- Modelled from the spec: the store's `GetSpanId`, a point lookup for which
absence is a valid result. The tracer's `GetSpanId` returns it as a plain
`Trace_SpanId`; which span id that is for a missing entry is said neither by
the spec nor by the files, so it is the parameter `env.AbsentSpanId`. -/
def SpatialSpanIdStore.GetSpanId (env : Env) (s : SpatialSpanIdStore) (Id : EntityComponentId)
    (FieldId : Nat) : Trace_SpanId :=
  (s.Entries Id FieldId).getD env.AbsentSpanId

/-- Modelled from the spec: the store's `WriteSpanId`, which makes `SpanId` the
entry of one field and leaves every other entry as it is. -/
def SpatialSpanIdStore.WriteSpanId (s : SpatialSpanIdStore) (Id : EntityComponentId)
    (FieldId : Nat) (SpanId : Trace_SpanId) : SpatialSpanIdStore :=
  { Entries := fun i f => if i = Id ∧ f = FieldId then some SpanId else s.Entries i f }

/-- Modelled from the spec: the store's `ComponentUpdate`, which returns for every
field the update touches one triple: the field id, the span of the update and
the entry the field had immediately before; it does not write. The spec has
the old span absent for a field without an entry, which the plain `OldSpanId`
of a `FieldSpanIdUpdate` cannot say; the member then holds the undetermined
`env.AbsentSpanId`, and nothing is concluded from that value. -/
def SpatialSpanIdStore.ComponentUpdate (env : Env) (s : SpatialSpanIdStore)
    (Op : ComponentUpdateOp) : List FieldSpanIdUpdate :=
  Op.fields.dedup.map fun FieldId =>
    { FieldId := FieldId, NewSpanId := Op.span_id,
      OldSpanId := s.GetSpanId env ⟨Op.entity_id, Op.component_id⟩ FieldId }

/-- How a run of the tracer code can fail. -/
inductive Fault where
  /-- The call `TOptional::GetValue()` on an optional that is not set. -/
  | GetValueOnUnsetOptional
deriving DecidableEq

/-- The loop of `SpatialEventTracer::ComponentUpdate` over the updates the store
returned. A failure carries the world in which it happened. -/
def ComponentUpdateLoop (env : Env) (self : Nat) (Id : EntityComponentId) :
    List FieldSpanIdUpdate → World → Except (Fault × World) World
  | [], w => .ok w
  | FieldSpanIdUpdate :: rest, w =>
    let FieldId := FieldSpanIdUpdate.FieldId
    let MergeCauses := [FieldSpanIdUpdate.NewSpanId, FieldSpanIdUpdate.OldSpanId]
    let r := TraceEvent env w self
      (env.FEventMergeComponentFieldUpdate Id.EntityId Id.ComponentId FieldId) MergeCauses
    match r.1 with
    | none => .error (.GetValueOnUnsetOptional, r.2)
    | some NewSpanId =>
      ComponentUpdateLoop env self Id rest
        (r.2.setTracer self
          { r.2.Tracers self with
            SpanIdStore := (r.2.Tracers self).SpanIdStore.WriteSpanId Id FieldId NewSpanId })

/-- The function `SpatialEventTracer::ComponentUpdate`. -/
def ComponentUpdate (env : Env) (w : World) (self : Nat) (Op : ComponentUpdateOp) :
    Except (Fault × World) World :=
  let Id : EntityComponentId := ⟨Op.entity_id, Op.component_id⟩
  let FieldSpanIdUpdates := (w.Tracers self).SpanIdStore.ComponentUpdate env Op
  ComponentUpdateLoop env self Id FieldSpanIdUpdates w

/-- The function `SpatialEventTracer::GetSpanId`. -/
def GetSpanId (env : Env) (w : World) (self : Nat) (Id : EntityComponentId) (FieldId : Nat) :
    Trace_SpanId :=
  (w.Tracers self).SpanIdStore.GetSpanId env Id FieldId

/-! ## `SpatialScopedActiveSpanId` -/

/-- The engine call `Trace_EventTracer_SetActiveSpanId`: the span becomes the
engine's ambient active span. -/
def Trace_EventTracer_SetActiveSpanId (w : World) (tracer : Option Nat) (span : Trace_SpanId) :
    World :=
  let w1 := w.call (.Trace_EventTracer_SetActiveSpanId tracer span)
  match tracer with
  | some h => { w1 with ActiveSpanId := Function.update w1.ActiveSpanId h (some span) }
  | none => w1

/-- The engine call `Trace_EventTracer_ClearActiveSpanId`: the engine has no
ambient active span afterwards. -/
def Trace_EventTracer_ClearActiveSpanId (w : World) (tracer : Option Nat) : World :=
  let w1 := w.call (.Trace_EventTracer_ClearActiveSpanId tracer)
  match tracer with
  | some h => { w1 with ActiveSpanId := Function.update w1.ActiveSpanId h none }
  | none => w1

/-- The data members of a `SpatialScopedActiveSpanId`. -/
structure SpatialScopedActiveSpanId where
  CurrentSpanId : Option Trace_SpanId
  EventTracer : Option Nat
deriving DecidableEq

/-- The constructor of `SpatialScopedActiveSpanId`: the guard and the world after
it ran. -/
def SpatialScopedActiveSpanId.construct (w : World) (InEventTracer : Nat)
    (InCurrentSpanId : Option Trace_SpanId) : SpatialScopedActiveSpanId × World :=
  let g : SpatialScopedActiveSpanId :=
    { CurrentSpanId := InCurrentSpanId, EventTracer := (w.Tracers InEventTracer).EventTracer }
  match g.CurrentSpanId with
  | some span => (g, Trace_EventTracer_SetActiveSpanId w g.EventTracer span)
  | none => (g, w)

/-- The destructor of `SpatialScopedActiveSpanId`. -/
def SpatialScopedActiveSpanId.destroy (g : SpatialScopedActiveSpanId) (w : World) : World :=
  match g.CurrentSpanId with
  | some _ => Trace_EventTracer_ClearActiveSpanId w g.EventTracer
  | none => w

/-- A scope: construct the guard, run the body, destroy the guard. -/
def withScopedActiveSpanId (w : World) (InEventTracer : Nat) (InCurrentSpanId : Option Trace_SpanId)
    (body : World → World) : World :=
  let r := SpatialScopedActiveSpanId.construct w InEventTracer InCurrentSpanId
  r.1.destroy (body r.2)

/-- The span a call added to the engine, with its causes, if the call is
`Trace_EventTracer_AddSpan`. -/
def Call.addedSpan : Call → Option Trace_Span
  | .Trace_EventTracer_AddSpan _ causes result => some { id := result, causes := causes }
  | _ => none

/-! ## Sequences of lifecycle calls and callbacks -/

/-- One invocation: `Enable` or `Disable` on some tracer object, or the engine
calling `TraceCallback`. -/
inductive Step where
  | Enable (self : Nat) (FileName Now : String) (DirOk : Bool)
  | Disable (self : Nat)
  | TraceCallback (Item : Trace_Item)

/-- Run one invocation. -/
def step (env : Env) (w : World) : Step → World
  | .Enable self FileName Now DirOk => Enable env w self FileName Now DirOk
  | .Disable self => Disable w self
  | .TraceCallback Item => TraceCallback env w Item

/-- Run a sequence of invocations, first to last. -/
def run (env : Env) (w : World) (steps : List Step) : World :=
  steps.foldl (step env) w

/-! ## Concrete data for the examples -/

/-- An environment: 64-bit counter, every item serializes to 500 bytes, the
`n`-th span gets the id with last byte `n`, events of type `rejected` are the
ones sampling turns down, and the store reports a missing entry as the id with
last byte 255. -/
def exampleEnv : Env where
  CounterBits := 64
  Trace_GetSerializedItemSize := fun _ => 500
  Trace_SerializeItemToStream := fun _ _ _ => 1
  Trace_GetLastError := ""
  Trace_EventTracer_AddSpan := fun n _ => .ofByte (Fin.ofNat n)
  Trace_EventTracer_ShouldSampleEvent := fun e => e.type != "rejected"
  ProjectSavedDir := "Saved"
  FEventMergeComponentFieldUpdate := fun _ _ _ => ⟨"merge_component_field", "", []⟩
  AbsentSpanId := .ofByte 255

/-- The same environment, except that sampling turns every event down. -/
def rejectingEnv : Env :=
  { exampleEnv with Trace_EventTracer_ShouldSampleEvent := fun _ => false }

/-- A tracer object as its members are before it is ever enabled, with a given
`MaxFileSize`. -/
def freshTracer (MaxFileSize : Nat) : SpatialEventTracer where
  WorkerId := "worker"
  FolderPath := ""
  Stream := none
  EventTracer := none
  bEnabled := false
  BytesWrittenToStream := 0
  MaxFileSize := MaxFileSize
  SpanIdStore := ⟨fun _ _ => none⟩

/-- A world in which nothing has happened: no tracer registered, every tracer
object fresh with a budget of 1000 bytes. -/
def freshWorld : World where
  Guard := none
  Tracers := fun _ => freshTracer 1000
  ActiveSpanId := fun _ => none
  SpansAllocated := 0
  NextHandle := 1
  Calls := []
  Log := []

/-- The steps of the budget example: enable tracer 0, three callbacks, disable. -/
def exampleSteps : List Step :=
  [.Enable 0 "worker" "now" true, .TraceCallback (.other 0), .TraceCallback (.other 0),
   .TraceCallback (.other 0), .Disable 0]

/-- The fresh world after `Enable` on tracer object 0 with the directory
created: engine handle 1, stream handle 2. -/
def enabledWorld : World :=
  Enable exampleEnv freshWorld 0 "worker" "now" true

/-- The fresh world after `Enable` on tracer object 0 when the directory could
not be created. -/
def enabledNoStreamWorld : World :=
  Enable exampleEnv freshWorld 0 "worker" "now" false

/-- An event message sampling accepts in `exampleEnv`. -/
def exampleMessage : FEventMessage :=
  { Type_ := "send_rpc", Message := "", Properties := [⟨"Function", .Str "Fire"⟩] }

/-- An event message sampling turns down in `exampleEnv`. -/
def rejectedMessage : FEventMessage :=
  { Type_ := "rejected", Message := "", Properties := [] }

/-- An update of component 3 on entity 7 that touches field 1. -/
def exampleUpdate : ComponentUpdateOp :=
  { entity_id := 7, component_id := 3, span_id := .ofByte 200, fields := [1] }

/-- The world after enabling tracer object 0 and one written 500-byte item. -/
def halfFullWorld : World :=
  run exampleEnv freshWorld (exampleSteps.take 2)

/-! ## The constructor -/

/-- The settings object as far as the constructor reads it. -/
structure USpatialGDKSettings where
  bEventTracingEnabled : Bool
  MaxEventTracingFileSizeBytes : Nat

/-- The constructor `SpatialEventTracer::SpatialEventTracer(WorkerId)` run on the
object `self`, whose other members hold in `w` the values their initialisers
gave them. `Settings` is what `GetDefault<USpatialGDKSettings>()` returns. -/
def SpatialEventTracer.construct (env : Env) (w : World) (self : Nat) (WorkerId : String)
    (Settings : Option USpatialGDKSettings) (Now : String) (DirOk : Bool) : World :=
  let w := w.setTracer self { w.Tracers self with WorkerId := WorkerId }
  match Settings with
  | some S =>
    if S.bEventTracingEnabled then
      let w := w.setTracer self
        { w.Tracers self with MaxFileSize := S.MaxEventTracingFileSizeBytes }
      Enable env w self WorkerId Now DirOk
    else w
  | none => w

/-! ## The trace event catalog: `SpatialTraceEvent.h`, `SpatialTraceEventBuilder.h` -/

/-- An `FSpatialTraceEvent`. -/
structure FSpatialTraceEvent where
  Type_ : String
  Message : String
  Data : List (String × String)
deriving DecidableEq

/-- The member function `FSpatialTraceEvent::AddData`. -/
def FSpatialTraceEvent.AddData (e : FSpatialTraceEvent) (Key Value : String) : FSpatialTraceEvent :=
  { e with Data := e.Data ++ [(Key, Value)] }

/-- The attribute keys of a record, in the order they were added. -/
def FSpatialTraceEvent.Keys (e : FSpatialTraceEvent) : List String :=
  e.Data.map Prod.fst

/-- A `UFunction`, by its name. -/
structure UFunction where
  Name : String
deriving DecidableEq

/-- The enumeration `ENetRole`. -/
inductive ENetRole where
  | ROLE_None
  | ROLE_SimulatedProxy
  | ROLE_AutonomousProxy
  | ROLE_Authority
  | ROLE_MAX
deriving DecidableEq

/-- The macro `GDK_EVENT_NAMESPACE`. -/
def GDK_EVENT_NAMESPACE : String := "unreal_gdk."

/-- Modelled from the spec: the texts the builder functions store as attribute
values. The bodies of the builder functions are not among the files; the
spec has each attribute carry a string describing the object, entity id,
component id, field id, request id and so on. -/
structure AttributeTexts where
  Object : Option UObject → String
  Function : Option UFunction → String
  EntityId : Int → String
  ComponentId : Nat → String
  FieldId : Nat → String
  NewWorkerId : Nat → String
  RequestID : Int → String

/-- An `FSpatialTraceEventBuilder`: it holds the record under construction. -/
structure FSpatialTraceEventBuilder where
  SpatialTraceEvent : FSpatialTraceEvent
deriving DecidableEq

namespace FSpatialTraceEventBuilder

/-- Modelled from the spec: the constructor from a type alone, whose body is not
among the files; the record starts with that type tag, an empty message and no
attributes. -/
def ofType (InType : String) : FSpatialTraceEventBuilder :=
  ⟨{ Type_ := InType, Message := "", Data := [] }⟩

/-- Modelled from the spec: the constructor from a type and a message, whose body
is not among the files; the record starts with that type tag, that message and
no attributes. -/
def ofTypeMessage (InType InMessage : String) : FSpatialTraceEventBuilder :=
  ⟨{ Type_ := InType, Message := InMessage, Data := [] }⟩

/-- Modelled from the spec: the builder function `AddKeyValue`, whose body is not
among the files; it adds one attribute, the key with the value. -/
def AddKeyValue (b : FSpatialTraceEventBuilder) (Key Value : String) : FSpatialTraceEventBuilder :=
  ⟨b.SpatialTraceEvent.AddData Key Value⟩

/-- Modelled from the spec: the builder function `AddObject`, whose body is not
among the files. Section 6 of the spec has an object reference give a string
and, when the object is a positioned entity, also a position attribute, the
way `TraceEvent` adds the fields of an object property: the key with the text
of the object, then for an actor the key followed by `Position` with the text
of its translation. -/
def AddObject (t : AttributeTexts) (b : FSpatialTraceEventBuilder) (Key : String)
    (Object : Option UObject) : FSpatialTraceEventBuilder :=
  match Object with
  | some o =>
    match o.ActorTranslation with
    | some Translation =>
      (b.AddKeyValue Key (t.Object Object)).AddKeyValue (Key ++ "Position") Translation
    | none => b.AddKeyValue Key (t.Object Object)
  | none => b.AddKeyValue Key (t.Object Object)

/-- Modelled from the spec: the builder function `AddFunction`, whose body is not
among the files; it adds one attribute, the key with the text of the function. -/
def AddFunction (t : AttributeTexts) (b : FSpatialTraceEventBuilder) (Key : String)
    (Function : Option UFunction) : FSpatialTraceEventBuilder :=
  b.AddKeyValue Key (t.Function Function)

/-- Modelled from the spec: the builder function `AddEntityId`, whose body is not
among the files; it adds one attribute, the key with the text of the id. -/
def AddEntityId (t : AttributeTexts) (b : FSpatialTraceEventBuilder) (Key : String)
    (EntityId : Int) : FSpatialTraceEventBuilder :=
  b.AddKeyValue Key (t.EntityId EntityId)

/-- Modelled from the spec: the builder function `AddComponentId`, whose body is
not among the files; it adds one attribute, the key with the text of the id. -/
def AddComponentId (t : AttributeTexts) (b : FSpatialTraceEventBuilder) (Key : String)
    (ComponentId : Nat) : FSpatialTraceEventBuilder :=
  b.AddKeyValue Key (t.ComponentId ComponentId)

/-- Modelled from the spec: the builder function `AddFieldId`, whose body is not
among the files; it adds one attribute, the key with the text of the id. -/
def AddFieldId (t : AttributeTexts) (b : FSpatialTraceEventBuilder) (Key : String)
    (FieldId : Nat) : FSpatialTraceEventBuilder :=
  b.AddKeyValue Key (t.FieldId FieldId)

/-- Modelled from the spec: the builder function `AddNewWorkerId`, whose body is
not among the files; it adds one attribute, the key with the text of the id. -/
def AddNewWorkerId (t : AttributeTexts) (b : FSpatialTraceEventBuilder) (Key : String)
    (NewWorkerId : Nat) : FSpatialTraceEventBuilder :=
  b.AddKeyValue Key (t.NewWorkerId NewWorkerId)

/-- Modelled from the spec: the builder function `AddCommand`, whose body is not
among the files; it adds one attribute, the key with the command. -/
def AddCommand (b : FSpatialTraceEventBuilder) (Key Command : String) : FSpatialTraceEventBuilder :=
  b.AddKeyValue Key Command

/-- Modelled from the spec: the builder function `AddRequestID`, whose body is
not among the files; it adds one attribute, the key with the text of the id. -/
def AddRequestID (t : AttributeTexts) (b : FSpatialTraceEventBuilder) (Key : String)
    (RequestID : Int) : FSpatialTraceEventBuilder :=
  b.AddKeyValue Key (t.RequestID RequestID)

/-- The helper `NetRoleToString`. -/
def NetRoleToString (bInput : ENetRole) : String :=
  match bInput with
  | .ROLE_Authority => "Authority"
  | .ROLE_AutonomousProxy => "Autonomous Proxy"
  | .ROLE_SimulatedProxy => "SimulatedProxy"
  | _ => "None"

/-- The helper `BoolToString`. -/
def BoolToString (bInput : Bool) : String :=
  if bInput then "True" else "False"

/-- Modelled from the spec: the builder function `AddNetRole`, whose body is not
among the files; it adds one attribute, the key with the text of the role. -/
def AddNetRole (b : FSpatialTraceEventBuilder) (Key : String) (Role : ENetRole) :
    FSpatialTraceEventBuilder :=
  b.AddKeyValue Key (NetRoleToString Role)

/-- Modelled from the spec: the member function `GetEvent`, whose body is not
among the files; it hands out the record built so far. -/
def GetEvent (b : FSpatialTraceEventBuilder) : FSpatialTraceEvent :=
  b.SpatialTraceEvent

end FSpatialTraceEventBuilder

namespace FSpatialTraceEventBuilder

/-- The static function `ProcessRPC`. -/
def ProcessRPC (t : AttributeTexts)
    (Object : Option UObject) (Function : Option UFunction) : FSpatialTraceEvent :=
  ofType (GDK_EVENT_NAMESPACE ++ "process_rpc")
    |>.AddObject t "Object" Object
    |>.AddFunction t "Function" Function
    |>.GetEvent

/-- The static function `SendRPC`. -/
def SendRPC (t : AttributeTexts)
    (Object : Option UObject) (Function : Option UFunction) : FSpatialTraceEvent :=
  ofType (GDK_EVENT_NAMESPACE ++ "send_rpc")
    |>.AddObject t "Object" Object
    |>.AddFunction t "Function" Function
    |>.GetEvent

/-- The static function `QueueRPC`. -/
def QueueRPC : FSpatialTraceEvent :=
  ofType ("queue_rpc")
    |>.GetEvent

/-- The static function `RetryRPC`. -/
def RetryRPC : FSpatialTraceEvent :=
  ofType ("retry_rpc")
    |>.GetEvent

/-- The static function `PropertyUpdate`. -/
def PropertyUpdate (t : AttributeTexts)
    (Object : Option UObject) (EntityId : Int) (ComponentId : Nat) (PropertyName : String) : FSpatialTraceEvent :=
  ofType (GDK_EVENT_NAMESPACE ++ "property_update")
    |>.AddObject t "Object" Object
    |>.AddEntityId t "EntityId" EntityId
    |>.AddComponentId t "ComponentId" ComponentId
    |>.AddKeyValue "PropertyName" PropertyName
    |>.GetEvent

/-- The static function `MergeComponentField`. -/
def MergeComponentField (t : AttributeTexts)
    (EntityId : Int) (ComponentId FieldId : Nat) : FSpatialTraceEvent :=
  ofType (GDK_EVENT_NAMESPACE ++ "merge_component_field")
    |>.AddEntityId t "EntityId" EntityId
    |>.AddComponentId t "ComponentId" ComponentId
    |>.AddFieldId t "FieldId" FieldId
    |>.GetEvent

/-- The static function `MergeComponent`. -/
def MergeComponent (t : AttributeTexts) (EntityId : Int) (ComponentId : Nat) : FSpatialTraceEvent :=
  ofType (GDK_EVENT_NAMESPACE ++ "merge_component")
    |>.AddEntityId t "EntityId" EntityId
    |>.AddComponentId t "ComponentId" ComponentId
    |>.GetEvent

/-- The static function `SendCommandRequest`. -/
def SendCommandRequest (t : AttributeTexts)
    (Command : String) (RequestID : Int) : FSpatialTraceEvent :=
  ofType (GDK_EVENT_NAMESPACE ++ "send_command_request")
    |>.AddCommand "Command" Command
    |>.AddRequestID t "RequestID" RequestID
    |>.GetEvent

/-- The static function `RecieveCommandRequest` taking a command and a request id. -/
def RecieveCommandRequest (t : AttributeTexts)
    (Command : String) (RequestID : Int) : FSpatialTraceEvent :=
  ofType (GDK_EVENT_NAMESPACE ++ "recieve_command_request")
    |>.AddCommand "Command" Command
    |>.AddRequestID t "RequestID" RequestID
    |>.GetEvent

/-- The static function `RecieveCommandRequest` taking a command, an actor, a target
object, a function, a trace id and a request id. -/
def RecieveCommandRequest2 (t : AttributeTexts)
    (Command : String) (Actor TargetObject : Option UObject) (Function : Option UFunction)
    (TraceId RequestID : Int) : FSpatialTraceEvent :=
  ofType (GDK_EVENT_NAMESPACE ++ "recieve_command_request")
    |>.AddCommand "Command" Command
    |>.AddObject t "Object" Actor
    |>.AddObject t "TargetObject" TargetObject
    |>.AddFunction t "Function" Function
    |>.AddKeyValue "TraceId" (toString TraceId)
    |>.AddRequestID t "RequestID" RequestID
    |>.GetEvent

/-- The static function `SendCommandResponse`. -/
def SendCommandResponse (t : AttributeTexts)
    (RequestID : Int) (bSuccess : Bool) : FSpatialTraceEvent :=
  ofType (GDK_EVENT_NAMESPACE ++ "send_command_response")
    |>.AddRequestID t "RequestID" RequestID
    |>.AddKeyValue "Success" (BoolToString bSuccess)
    |>.GetEvent

/-- The static function `RecieveCommandResponse` taking a command and a request id. -/
def RecieveCommandResponse (t : AttributeTexts)
    (Command : String) (RequestID : Int) : FSpatialTraceEvent :=
  ofType (GDK_EVENT_NAMESPACE ++ "recieve_command_response")
    |>.AddCommand "Command" Command
    |>.AddRequestID t "RequestID" RequestID
    |>.GetEvent

/-- The static function `RecieveCommandResponse` taking an actor, a request id and a success flag. -/
def RecieveCommandResponse2 (t : AttributeTexts)
    (Actor : Option UObject) (RequestID : Int) (bSuccess : Bool) : FSpatialTraceEvent :=
  ofType (GDK_EVENT_NAMESPACE ++ "recieve_command_response")
    |>.AddObject t "Object" Actor
    |>.AddRequestID t "RequestID" RequestID
    |>.AddKeyValue "Success" (BoolToString bSuccess)
    |>.GetEvent

/-- The static function `RecieveCommandResponse` taking an actor, a target object, a
function, a request id and a success flag. -/
def RecieveCommandResponse3 (t : AttributeTexts)
    (Actor TargetObject : Option UObject) (Function : Option UFunction) (RequestID : Int)
    (bSuccess : Bool) : FSpatialTraceEvent :=
  ofType (GDK_EVENT_NAMESPACE ++ "recieve_command_response")
    |>.AddObject t "Object" Actor
    |>.AddObject t "TargetObject" TargetObject
    |>.AddFunction t "Function" Function
    |>.AddRequestID t "RequestID" RequestID
    |>.AddKeyValue "Success" (BoolToString bSuccess)
    |>.GetEvent

/-- The static function `SendRemoveEntity`. -/
def SendRemoveEntity (t : AttributeTexts)
    (Object : Option UObject) (EntityId : Int) : FSpatialTraceEvent :=
  ofType (GDK_EVENT_NAMESPACE ++ "send_remove_entity")
    |>.AddObject t "Object" Object
    |>.AddEntityId t "EntityId" EntityId
    |>.GetEvent

/-- The static function `RecieveRemoveEntity`. -/
def RecieveRemoveEntity (t : AttributeTexts)
    (Object : Option UObject) (EntityId : Int) : FSpatialTraceEvent :=
  ofType (GDK_EVENT_NAMESPACE ++ "recieve_remove_entity")
    |>.AddObject t "Object" Object
    |>.AddEntityId t "EntityId" EntityId
    |>.GetEvent

/-- The static function `SendCreateEntity`. -/
def SendCreateEntity (t : AttributeTexts)
    (Object : Option UObject) (EntityId : Int) : FSpatialTraceEvent :=
  ofType (GDK_EVENT_NAMESPACE ++ "send_create_entity")
    |>.AddObject t "Object" Object
    |>.AddEntityId t "EntityId" EntityId
    |>.GetEvent

/-- The static function `RecieveCreateEntity`. -/
def RecieveCreateEntity (t : AttributeTexts)
    (Object : Option UObject) (EntityId : Int) : FSpatialTraceEvent :=
  ofType (GDK_EVENT_NAMESPACE ++ "recieve_create_entity")
    |>.AddObject t "Object" Object
    |>.AddEntityId t "EntityId" EntityId
    |>.GetEvent

/-- The static function `RecieveCreateEntitySuccess`. -/
def RecieveCreateEntitySuccess (t : AttributeTexts)
    (Object : Option UObject) (EntityId : Int) : FSpatialTraceEvent :=
  ofType (GDK_EVENT_NAMESPACE ++ "recieve_create_entity_success")
    |>.AddObject t "Object" Object
    |>.AddEntityId t "EntityId" EntityId
    |>.GetEvent

/-- The static function `SendRetireEntity`. -/
def SendRetireEntity (t : AttributeTexts)
    (Object : Option UObject) (EntityId : Int) : FSpatialTraceEvent :=
  ofType (GDK_EVENT_NAMESPACE ++ "send_retire_entity")
    |>.AddObject t "Object" Object
    |>.AddEntityId t "EntityId" EntityId
    |>.GetEvent

/-- The static function `AuthorityIntentUpdate`. -/
def AuthorityIntentUpdate (t : AttributeTexts)
    (WorkerId : Nat) (Object : Option UObject) : FSpatialTraceEvent :=
  ofType (GDK_EVENT_NAMESPACE ++ "authority_intent_update")
    |>.AddObject t "Object" Object
    |>.AddNewWorkerId t "NewWorkerId" WorkerId
    |>.GetEvent

/-- The static function `AuthorityLossImminent`. -/
def AuthorityLossImminent (t : AttributeTexts)
    (Object : Option UObject) (Role : ENetRole) : FSpatialTraceEvent :=
  ofType (GDK_EVENT_NAMESPACE ++ "authority_loss_imminent")
    |>.AddObject t "Object" Object
    |>.AddNetRole "NetRole" Role
    |>.GetEvent

/-- The static function `ComponentUpdate`. -/
def ComponentUpdate (t : AttributeTexts)
    (Object TargetObject : Option UObject) (EntityId : Int) (ComponentId : Nat) : FSpatialTraceEvent :=
  ofType (GDK_EVENT_NAMESPACE ++ "component_update")
    |>.AddObject t "Object" Object
    |>.AddObject t "TargetObject" TargetObject
    |>.AddEntityId t "EntityId" EntityId
    |>.AddComponentId t "ComponentId" ComponentId
    |>.GetEvent

/-- The static function `GenericMessage`. -/
def GenericMessage (Message : String) : FSpatialTraceEvent :=
  (ofTypeMessage (GDK_EVENT_NAMESPACE ++ "generic_message") Message).GetEvent

end FSpatialTraceEventBuilder

/-- One call of a static function of the catalog, with its arguments. -/
inductive StaticCall where
  | ProcessRPC (Object : Option UObject) (Function : Option UFunction)
  | SendRPC (Object : Option UObject) (Function : Option UFunction)
  | QueueRPC
  | RetryRPC
  | PropertyUpdate (Object : Option UObject) (EntityId : Int) (ComponentId : Nat) (PropertyName : String)
  | MergeComponentField (EntityId : Int) (ComponentId FieldId : Nat)
  | MergeComponent (EntityId : Int) (ComponentId : Nat)
  | SendCommandRequest (Command : String) (RequestID : Int)
  | RecieveCommandRequest (Command : String) (RequestID : Int)
  | RecieveCommandRequest2 (Command : String) (Actor TargetObject : Option UObject)
      (Function : Option UFunction) (TraceId RequestID : Int)
  | SendCommandResponse (RequestID : Int) (bSuccess : Bool)
  | RecieveCommandResponse (Command : String) (RequestID : Int)
  | RecieveCommandResponse2 (Actor : Option UObject) (RequestID : Int) (bSuccess : Bool)
  | RecieveCommandResponse3 (Actor TargetObject : Option UObject) (Function : Option UFunction)
      (RequestID : Int) (bSuccess : Bool)
  | SendRemoveEntity (Object : Option UObject) (EntityId : Int)
  | RecieveRemoveEntity (Object : Option UObject) (EntityId : Int)
  | SendCreateEntity (Object : Option UObject) (EntityId : Int)
  | RecieveCreateEntity (Object : Option UObject) (EntityId : Int)
  | RecieveCreateEntitySuccess (Object : Option UObject) (EntityId : Int)
  | SendRetireEntity (Object : Option UObject) (EntityId : Int)
  | AuthorityIntentUpdate (WorkerId : Nat) (Object : Option UObject)
  | AuthorityLossImminent (Object : Option UObject) (Role : ENetRole)
  | ComponentUpdate (Object TargetObject : Option UObject) (EntityId : Int) (ComponentId : Nat)
  | GenericMessage (Message : String)

/-- The record a call of a static function returns. -/
def StaticCall.event (t : AttributeTexts) : StaticCall → FSpatialTraceEvent
  | .ProcessRPC Object Function => FSpatialTraceEventBuilder.ProcessRPC t Object Function
  | .SendRPC Object Function => FSpatialTraceEventBuilder.SendRPC t Object Function
  | .QueueRPC => FSpatialTraceEventBuilder.QueueRPC
  | .RetryRPC => FSpatialTraceEventBuilder.RetryRPC
  | .PropertyUpdate Object EntityId ComponentId PropertyName =>
    FSpatialTraceEventBuilder.PropertyUpdate t Object EntityId ComponentId PropertyName
  | .MergeComponentField EntityId ComponentId FieldId =>
    FSpatialTraceEventBuilder.MergeComponentField t EntityId ComponentId FieldId
  | .MergeComponent EntityId ComponentId =>
    FSpatialTraceEventBuilder.MergeComponent t EntityId ComponentId
  | .SendCommandRequest Command RequestID =>
    FSpatialTraceEventBuilder.SendCommandRequest t Command RequestID
  | .RecieveCommandRequest Command RequestID =>
    FSpatialTraceEventBuilder.RecieveCommandRequest t Command RequestID
  | .RecieveCommandRequest2 Command Actor TargetObject Function TraceId RequestID =>
    FSpatialTraceEventBuilder.RecieveCommandRequest2 t Command Actor TargetObject Function TraceId RequestID
  | .SendCommandResponse RequestID bSuccess =>
    FSpatialTraceEventBuilder.SendCommandResponse t RequestID bSuccess
  | .RecieveCommandResponse Command RequestID =>
    FSpatialTraceEventBuilder.RecieveCommandResponse t Command RequestID
  | .RecieveCommandResponse2 Actor RequestID bSuccess =>
    FSpatialTraceEventBuilder.RecieveCommandResponse2 t Actor RequestID bSuccess
  | .RecieveCommandResponse3 Actor TargetObject Function RequestID bSuccess =>
    FSpatialTraceEventBuilder.RecieveCommandResponse3 t Actor TargetObject Function RequestID bSuccess
  | .SendRemoveEntity Object EntityId =>
    FSpatialTraceEventBuilder.SendRemoveEntity t Object EntityId
  | .RecieveRemoveEntity Object EntityId =>
    FSpatialTraceEventBuilder.RecieveRemoveEntity t Object EntityId
  | .SendCreateEntity Object EntityId =>
    FSpatialTraceEventBuilder.SendCreateEntity t Object EntityId
  | .RecieveCreateEntity Object EntityId =>
    FSpatialTraceEventBuilder.RecieveCreateEntity t Object EntityId
  | .RecieveCreateEntitySuccess Object EntityId =>
    FSpatialTraceEventBuilder.RecieveCreateEntitySuccess t Object EntityId
  | .SendRetireEntity Object EntityId =>
    FSpatialTraceEventBuilder.SendRetireEntity t Object EntityId
  | .AuthorityIntentUpdate WorkerId Object =>
    FSpatialTraceEventBuilder.AuthorityIntentUpdate t WorkerId Object
  | .AuthorityLossImminent Object Role =>
    FSpatialTraceEventBuilder.AuthorityLossImminent t Object Role
  | .ComponentUpdate Object TargetObject EntityId ComponentId =>
    FSpatialTraceEventBuilder.ComponentUpdate t Object TargetObject EntityId ComponentId
  | .GenericMessage Message => FSpatialTraceEventBuilder.GenericMessage Message

/-- Which static function a call is of: the functions are numbered in the order
of the header, each overload with a number of its own. -/
def StaticCall.overload : StaticCall → Nat
  | .ProcessRPC _ _ => 0
  | .SendRPC _ _ => 1
  | .QueueRPC => 2
  | .RetryRPC => 3
  | .PropertyUpdate _ _ _ _ => 4
  | .MergeComponentField _ _ _ => 5
  | .MergeComponent _ _ => 6
  | .SendCommandRequest _ _ => 7
  | .RecieveCommandRequest _ _ => 8
  | .RecieveCommandRequest2 _ _ _ _ _ _ => 9
  | .SendCommandResponse _ _ => 10
  | .RecieveCommandResponse _ _ => 11
  | .RecieveCommandResponse2 _ _ _ => 12
  | .RecieveCommandResponse3 _ _ _ _ _ => 13
  | .SendRemoveEntity _ _ => 14
  | .RecieveRemoveEntity _ _ => 15
  | .SendCreateEntity _ _ => 16
  | .RecieveCreateEntity _ _ => 17
  | .RecieveCreateEntitySuccess _ _ => 18
  | .SendRetireEntity _ _ => 19
  | .AuthorityIntentUpdate _ _ => 20
  | .AuthorityLossImminent _ _ => 21
  | .ComponentUpdate _ _ _ _ => 22
  | .GenericMessage _ => 23

/-- Whether an object reference is to a positioned entity, an actor. -/
def isPositioned (Object : Option UObject) : Bool :=
  match Object with
  | some o => o.ActorTranslation.isSome
  | none => false

/-- The keys `AddObject` adds for a key and an object. -/
def objectKeys (Key : String) (Object : Option UObject) : List String :=
  if isPositioned Object then [Key, Key ++ "Position"] else [Key]

/-- For each object argument of a call, in the order of the parameters, whether
it is a positioned entity. -/
def StaticCall.positioned : StaticCall → List Bool
  | .ProcessRPC Object _ => [isPositioned Object]
  | .SendRPC Object _ => [isPositioned Object]
  | .QueueRPC => []
  | .RetryRPC => []
  | .PropertyUpdate Object _ _ _ => [isPositioned Object]
  | .MergeComponentField _ _ _ => []
  | .MergeComponent _ _ => []
  | .SendCommandRequest _ _ => []
  | .RecieveCommandRequest _ _ => []
  | .RecieveCommandRequest2 _ Actor TargetObject _ _ _ => [isPositioned Actor, isPositioned TargetObject]
  | .SendCommandResponse _ _ => []
  | .RecieveCommandResponse _ _ => []
  | .RecieveCommandResponse2 Actor _ _ => [isPositioned Actor]
  | .RecieveCommandResponse3 Actor TargetObject _ _ _ => [isPositioned Actor, isPositioned TargetObject]
  | .SendRemoveEntity Object _ => [isPositioned Object]
  | .RecieveRemoveEntity Object _ => [isPositioned Object]
  | .SendCreateEntity Object _ => [isPositioned Object]
  | .RecieveCreateEntity Object _ => [isPositioned Object]
  | .RecieveCreateEntitySuccess Object _ => [isPositioned Object]
  | .SendRetireEntity Object _ => [isPositioned Object]
  | .AuthorityIntentUpdate _ Object => [isPositioned Object]
  | .AuthorityLossImminent Object _ => [isPositioned Object]
  | .ComponentUpdate Object TargetObject _ _ => [isPositioned Object, isPositioned TargetObject]
  | .GenericMessage _ => []

/-- A span id whose first two bytes are `0x01`, `0x10` and whose other bytes are
zero. -/
def collidingSpanIdA : Trace_SpanId :=
  ⟨[1, 16, 0, 0, 0, 0, 0, 0, 0, 0, 0, 0, 0, 0, 0, 0], rfl⟩

/-- A span id whose first two bytes are `0x11`, `0x00` and whose other bytes are
zero. -/
def collidingSpanIdB : Trace_SpanId :=
  ⟨[17, 0, 0, 0, 0, 0, 0, 0, 0, 0, 0, 0, 0, 0, 0, 0], rfl⟩

/-- The world after a whole first session of tracer object 0 (enabled, two items
written that use up the budget of 1000 bytes, a third dropped, disabled) and
a second `Enable` of the same object. -/
def reenabledWorld : World :=
  Enable exampleEnv (run exampleEnv freshWorld exampleSteps) 0 "worker" "later" true

/-- Tracer object `A` is enabled, then tracer object `B`, then `A` is disabled. -/
def enableBothDisableFirst (env : Env) (w : World) (A B : Nat) (FileNameA NowA : String)
    (DirOkA : Bool) (FileNameB NowB : String) (DirOkB : Bool) : World :=
  Disable (Enable env (Enable env w A FileNameA NowA DirOkA) B FileNameB NowB DirOkB) A

/-- Texts for the examples: names for objects and functions, decimal numbers. -/
def exampleTexts : AttributeTexts where
  Object := fun o => match o with
    | some o => o.Name
    | none => "Null"
  Function := fun f => match f with
    | some f => f.Name
    | none => "Null"
  EntityId := toString
  ComponentId := toString
  FieldId := toString
  NewWorkerId := toString
  RequestID := toString

/-- An actor for the examples. -/
def examplePawn : UObject :=
  { Name := "Pawn", ActorTranslation := some "X=1.000 Y=2.000 Z=3.000" }

/-- Another actor for the examples. -/
def exampleTurret : UObject :=
  { Name := "Turret", ActorTranslation := some "X=0.000 Y=0.000 Z=9.000" }

/-- An object that is not an actor. -/
def exampleComponent : UObject :=
  { Name := "Movement", ActorTranslation := none }

/-! ## Projections of the world updates -/

@[simp] theorem setTracer_Tracers (w : World) (self : Nat) (t : SpatialEventTracer) (r : Nat) :
    (w.setTracer self t).Tracers r = if r = self then t else w.Tracers r := by
  simp [World.setTracer, Function.update_apply]

@[simp] theorem setTracer_Guard (w : World) (self : Nat) (t : SpatialEventTracer) :
    (w.setTracer self t).Guard = w.Guard := rfl

@[simp] theorem setTracer_Calls (w : World) (self : Nat) (t : SpatialEventTracer) :
    (w.setTracer self t).Calls = w.Calls := rfl

@[simp] theorem setTracer_SpansAllocated (w : World) (self : Nat) (t : SpatialEventTracer) :
    (w.setTracer self t).SpansAllocated = w.SpansAllocated := rfl

@[simp] theorem setTracer_NextHandle (w : World) (self : Nat) (t : SpatialEventTracer) :
    (w.setTracer self t).NextHandle = w.NextHandle := rfl

@[simp] theorem setTracer_ActiveSpanId (w : World) (self : Nat) (t : SpatialEventTracer) :
    (w.setTracer self t).ActiveSpanId = w.ActiveSpanId := rfl

@[simp] theorem call_Tracers (w : World) (c : Call) : (w.call c).Tracers = w.Tracers := rfl

@[simp] theorem call_Guard (w : World) (c : Call) : (w.call c).Guard = w.Guard := rfl

@[simp] theorem call_Calls (w : World) (c : Call) : (w.call c).Calls = w.Calls ++ [c] := rfl

@[simp] theorem call_SpansAllocated (w : World) (c : Call) :
    (w.call c).SpansAllocated = w.SpansAllocated := rfl

@[simp] theorem call_NextHandle (w : World) (c : Call) : (w.call c).NextHandle = w.NextHandle := rfl

@[simp] theorem call_ActiveSpanId (w : World) (c : Call) :
    (w.call c).ActiveSpanId = w.ActiveSpanId := rfl

@[simp] theorem log_Tracers (w : World) (l : String) : (w.log l).Tracers = w.Tracers := rfl

@[simp] theorem log_Guard (w : World) (l : String) : (w.log l).Guard = w.Guard := rfl

@[simp] theorem log_Calls (w : World) (l : String) : (w.log l).Calls = w.Calls := rfl

@[simp] theorem log_SpansAllocated (w : World) (l : String) :
    (w.log l).SpansAllocated = w.SpansAllocated := rfl

@[simp] theorem log_NextHandle (w : World) (l : String) : (w.log l).NextHandle = w.NextHandle := rfl

@[simp] theorem log_ActiveSpanId (w : World) (l : String) :
    (w.log l).ActiveSpanId = w.ActiveSpanId := rfl

@[simp] theorem releaseStream_Tracers (w : World) (old : Option Nat) :
    (releaseStream w old).Tracers = w.Tracers := by
  cases old <;> rfl

@[simp] theorem releaseStream_Guard (w : World) (old : Option Nat) :
    (releaseStream w old).Guard = w.Guard := by
  cases old <;> rfl

@[simp] theorem releaseStream_NextHandle (w : World) (old : Option Nat) :
    (releaseStream w old).NextHandle = w.NextHandle := by
  cases old <;> rfl

/-! ## What each operation does to a tracer object -/

/-- The tracer objects after `Enable`. -/
theorem Enable_Tracers (env : Env) (w : World) (self : Nat) (FileName Now : String)
    (DirOk : Bool) (r : Nat) :
    (Enable env w self FileName Now DirOk).Tracers r =
      if r = self then
        { w.Tracers self with
          EventTracer := some w.NextHandle
          bEnabled := true
          FolderPath := env.ProjectSavedDir ++ "/" ++ "EventTracing"
          Stream := if DirOk then some (w.NextHandle + 1) else (w.Tracers self).Stream }
      else w.Tracers r := by
  by_cases hr : r = self <;> cases DirOk <;> simp [Enable, hr]

/-- The registered tracer after `Enable`. -/
theorem Enable_Guard (env : Env) (w : World) (self : Nat) (FileName Now : String)
    (DirOk : Bool) : (Enable env w self FileName Now DirOk).Guard = some self := by
  cases DirOk <;> simp [Enable]

/-- The tracer objects after `Disable`. -/
theorem Disable_Tracers (w : World) (self r : Nat) :
    (Disable w self).Tracers r =
      if r = self then { w.Tracers self with bEnabled := false, Stream := none }
      else w.Tracers r := by
  by_cases hr : r = self <;> simp [Disable, hr]

/-- No tracer is registered after `Disable`. -/
theorem Disable_Guard (w : World) (self : Nat) : (Disable w self).Guard = none := by
  simp [Disable]

/-- The tracer objects after `TraceCallback`: only the byte counter of the
registered tracer can change, and only to the sum that passed the check. -/
theorem TraceCallback_Tracers (env : Env) (w : World) (Item : Trace_Item) (r : Nat) :
    (TraceCallback env w Item).Tracers r = w.Tracers r ∨
      ((TraceCallback env w Item).Tracers r =
          { w.Tracers r with
            BytesWrittenToStream :=
              counterAdd env (w.Tracers r).BytesWrittenToStream (ItemSizeOf env Item) } ∧
        counterAdd env (w.Tracers r).BytesWrittenToStream (ItemSizeOf env Item)
          ≤ (w.Tracers r).MaxFileSize) := by
  cases hG : w.Guard with
  | none => simp [TraceCallback, hG]
  | some self =>
    cases hE : (w.Tracers self).bEnabled with
    | false => simp [TraceCallback, hG, hE]
    | true =>
      cases hS : (w.Tracers self).Stream with
      | none => simp [TraceCallback, hG, hE, hS]
      | some Stream =>
        by_cases hfit : counterAdd env (w.Tracers self).BytesWrittenToStream (ItemSizeOf env Item)
            ≤ (w.Tracers self).MaxFileSize
        · by_cases hr : r = self
          · subst hr
            right
            refine ⟨?_, hfit⟩
            cases hd : debugLine Item <;>
              by_cases hc : env.Trace_SerializeItemToStream Stream Item (ItemSizeOf env Item) = 1 <;>
              simp [TraceCallback, hG, hE, hS, hfit, hd, hc]
          · left
            cases hd : debugLine Item <;>
              by_cases hc : env.Trace_SerializeItemToStream Stream Item (ItemSizeOf env Item) = 1 <;>
              simp [TraceCallback, hG, hE, hS, hfit, hd, hc, hr]
        · left
          cases hd : debugLine Item <;> simp [TraceCallback, hG, hE, hS, hfit, hd]

/-- One invocation keeps `MaxFileSize` of every tracer object. -/
theorem step_MaxFileSize (env : Env) (w : World) (s : Step) (r : Nat) :
    ((step env w s).Tracers r).MaxFileSize = (w.Tracers r).MaxFileSize := by
  cases s with
  | Enable self FileName Now DirOk =>
    simp only [step, Enable_Tracers]
    split <;> simp_all
  | Disable self =>
    simp only [step, Disable_Tracers]
    split <;> simp_all
  | TraceCallback Item =>
    rcases TraceCallback_Tracers env w Item r with h | ⟨h, _⟩ <;> simp [step, h]

/-- One invocation keeps the byte counter of every tracer object within its
`MaxFileSize`. -/
theorem step_budget (env : Env) (w : World) (s : Step) (r : Nat)
    (h : (w.Tracers r).BytesWrittenToStream ≤ (w.Tracers r).MaxFileSize) :
    ((step env w s).Tracers r).BytesWrittenToStream ≤ (w.Tracers r).MaxFileSize := by
  cases s with
  | Enable self FileName Now DirOk =>
    simp only [step, Enable_Tracers]
    split <;> simp_all
  | Disable self =>
    simp only [step, Disable_Tracers]
    split <;> simp_all
  | TraceCallback Item =>
    rcases TraceCallback_Tracers env w Item r with h1 | ⟨h1, h2⟩
    · simpa [step, h1] using h
    · simpa [step, h1] using h2

/-- A sequence of invocations keeps the byte counter of every tracer object
within its `MaxFileSize`, which stays what it was. -/
theorem run_budget (env : Env) (steps : List Step) (w : World) (r : Nat)
    (h : (w.Tracers r).BytesWrittenToStream ≤ (w.Tracers r).MaxFileSize) :
    ((run env w steps).Tracers r).BytesWrittenToStream ≤ (w.Tracers r).MaxFileSize ∧
      ((run env w steps).Tracers r).MaxFileSize = (w.Tracers r).MaxFileSize := by
  induction steps generalizing w with
  | nil => exact ⟨h, rfl⟩
  | cons s rest ih =>
    have hM := step_MaxFileSize env w s r
    have hB := step_budget env w s r h
    have := ih (step env w s) (by rw [hM]; exact hB)
    simpa [run, hM] using this

/-- Both branches of `TraceEvent` pass the cause list it was given. -/
@[simp] theorem causesPassed_eq (Causes : List Trace_SpanId) : causesPassed Causes = Causes := by
  cases Causes <;> simp [causesPassed]

/-- The destructor of a tracer that was disabled before does nothing: its
`IsEnabled()` check keeps it from calling `Disable` again. -/
theorem destruct_after_Disable (w : World) (self : Nat) :
    SpatialEventTracer.destruct (Disable w self) self = Disable w self := by
  simp [SpatialEventTracer.destruct, Disable_Tracers]

/-- On an enabled tracer, `TraceEvent` for an event that sampling turns down:
the span is allocated, the optional returned is unset, no event is added. -/
theorem TraceEvent_rejected (env : Env) (w : World) (self : Nat) (EventMessage : FEventMessage)
    (Causes : List Trace_SpanId) (hE : (w.Tracers self).bEnabled = true)
    (hS : env.Trace_EventTracer_ShouldSampleEvent
      { span_id := env.Trace_EventTracer_AddSpan w.SpansAllocated Causes,
        unix_timestamp_millis := 0, message := EventMessage.Message,
        type := EventMessage.Type_, data := [] } = false) :
    TraceEvent env w self EventMessage Causes =
      (none,
        ({ w with SpansAllocated := w.SpansAllocated + 1 } : World).call
          (.Trace_EventTracer_AddSpan (w.Tracers self).EventTracer Causes
            (env.Trace_EventTracer_AddSpan w.SpansAllocated Causes))) := by
  simp [TraceEvent, hE, hS]

/-- On an enabled tracer, `TraceEvent` for an event that sampling accepts: the
span is allocated and returned, and the event is added with its string fields. -/
theorem TraceEvent_accepted (env : Env) (w : World) (self : Nat) (EventMessage : FEventMessage)
    (Causes : List Trace_SpanId) (hE : (w.Tracers self).bEnabled = true)
    (hS : env.Trace_EventTracer_ShouldSampleEvent
      { span_id := env.Trace_EventTracer_AddSpan w.SpansAllocated Causes,
        unix_timestamp_millis := 0, message := EventMessage.Message,
        type := EventMessage.Type_, data := [] } = true) :
    TraceEvent env w self EventMessage Causes =
      (some (env.Trace_EventTracer_AddSpan w.SpansAllocated Causes),
        ((({ w with SpansAllocated := w.SpansAllocated + 1 } : World).call
          (.Trace_EventTracer_AddSpan (w.Tracers self).EventTracer Causes
            (env.Trace_EventTracer_AddSpan w.SpansAllocated Causes))).call
          (.Trace_EventTracer_AddEvent (w.Tracers self).EventTracer
            { span_id := env.Trace_EventTracer_AddSpan w.SpansAllocated Causes,
              unix_timestamp_millis := 0, message := EventMessage.Message,
              type := EventMessage.Type_,
              data := EventMessage.Properties.flatMap propertyFields }))) := by
  simp [TraceEvent, hE, hS]

/-- The loop of `ComponentUpdate` on an enabled tracer when sampling turns the
merge event of the first update down: the merge span is allocated, and the
loop fails on `GetValue()` before anything is written to the store. -/
theorem ComponentUpdateLoop_rejected (env : Env) (self : Nat) (Id : EntityComponentId)
    (u : FieldSpanIdUpdate) (rest : List FieldSpanIdUpdate) (w : World)
    (hE : (w.Tracers self).bEnabled = true)
    (hS : env.Trace_EventTracer_ShouldSampleEvent
      { span_id := env.Trace_EventTracer_AddSpan w.SpansAllocated [u.NewSpanId, u.OldSpanId],
        unix_timestamp_millis := 0,
        message := (env.FEventMergeComponentFieldUpdate Id.EntityId Id.ComponentId u.FieldId).Message,
        type := (env.FEventMergeComponentFieldUpdate Id.EntityId Id.ComponentId u.FieldId).Type_,
        data := [] } = false) :
    ComponentUpdateLoop env self Id (u :: rest) w =
      .error (.GetValueOnUnsetOptional,
        ({ w with SpansAllocated := w.SpansAllocated + 1 } : World).call
          (.Trace_EventTracer_AddSpan (w.Tracers self).EventTracer [u.NewSpanId, u.OldSpanId]
            (env.Trace_EventTracer_AddSpan w.SpansAllocated [u.NewSpanId, u.OldSpanId]))) := by
  simp only [ComponentUpdateLoop, TraceEvent_rejected env w self _ _ hE hS]

/-- The calls `Disable` makes: the engine is disabled, an open stream is
destroyed, the engine is destroyed. -/
theorem Disable_Calls (w : World) (self : Nat) :
    (Disable w self).Calls =
      w.Calls ++ [.Trace_EventTracer_Disable (w.Tracers self).EventTracer]
        ++ (match (w.Tracers self).Stream with
            | some s => [.Io_Stream_Destroy s]
            | none => [])
        ++ [.Trace_EventTracer_Destroy (w.Tracers self).EventTracer] := by
  cases hS : (w.Tracers self).Stream <;> simp [Disable, releaseStream, hS]

/-- The loop of `ComponentUpdate` on an enabled tracer when sampling accepts the
merge event: it completes, allocates one merge span per update with causes
`[NewSpanId, OldSpanId]`, leaves the entries of untouched fields alone and, when
the field ids are distinct, leaves each touched field with its merge span. -/
theorem ComponentUpdateLoop_accepted (env : Env) (self : Nat) (Id : EntityComponentId)
    (hS : ∀ (FieldId : Nat) (span : Trace_SpanId),
      env.Trace_EventTracer_ShouldSampleEvent
        { span_id := span, unix_timestamp_millis := 0,
          message := (env.FEventMergeComponentFieldUpdate Id.EntityId Id.ComponentId FieldId).Message,
          type := (env.FEventMergeComponentFieldUpdate Id.EntityId Id.ComponentId FieldId).Type_,
          data := [] } = true) :
    ∀ (us : List FieldSpanIdUpdate) (w : World), (w.Tracers self).bEnabled = true →
      ∃ w', ComponentUpdateLoop env self Id us w = .ok w' ∧
        (w'.Tracers self).bEnabled = true ∧
        w'.Calls.filterMap Call.addedSpan =
          w.Calls.filterMap Call.addedSpan
            ++ (us.enumFrom w.SpansAllocated).map (fun p =>
              { id := env.Trace_EventTracer_AddSpan p.1 [p.2.NewSpanId, p.2.OldSpanId],
                causes := [p.2.NewSpanId, p.2.OldSpanId] }) ∧
        (∀ f, f ∉ us.map (fun u => u.FieldId) →
          (w'.Tracers self).SpanIdStore.Entries Id f = (w.Tracers self).SpanIdStore.Entries Id f) ∧
        ((us.map (fun u => u.FieldId)).Nodup → ∀ p ∈ us.enumFrom w.SpansAllocated,
          (w'.Tracers self).SpanIdStore.Entries Id p.2.FieldId =
            some (env.Trace_EventTracer_AddSpan p.1 [p.2.NewSpanId, p.2.OldSpanId])) := by
  intro us
  induction us with
  | nil =>
    intro w hE
    exact ⟨w, rfl, hE, by simp, fun _ _ => rfl, fun _ p hp => by simp at hp⟩
  | cons u rest ih =>
    intro w hE
    have hT := TraceEvent_accepted env w self
      (env.FEventMergeComponentFieldUpdate Id.EntityId Id.ComponentId u.FieldId)
      [u.NewSpanId, u.OldSpanId] hE (hS _ _)
    obtain ⟨w', hL, hE', hC, hF, hN⟩ := ih
      ((TraceEvent env w self
          (env.FEventMergeComponentFieldUpdate Id.EntityId Id.ComponentId u.FieldId)
          [u.NewSpanId, u.OldSpanId]).2.setTracer self
        { (TraceEvent env w self
            (env.FEventMergeComponentFieldUpdate Id.EntityId Id.ComponentId u.FieldId)
            [u.NewSpanId, u.OldSpanId]).2.Tracers self with
          SpanIdStore := ((TraceEvent env w self
            (env.FEventMergeComponentFieldUpdate Id.EntityId Id.ComponentId u.FieldId)
            [u.NewSpanId, u.OldSpanId]).2.Tracers self).SpanIdStore.WriteSpanId Id u.FieldId
              (env.Trace_EventTracer_AddSpan w.SpansAllocated [u.NewSpanId, u.OldSpanId]) })
      (by rw [hT]; simp [hE])
    refine ⟨w', ?_, hE', ?_, ?_, ?_⟩
    · rw [← hL]
      simp only [ComponentUpdateLoop, hT]
    · rw [hC, hT]
      simp [Call.addedSpan, List.enumFrom]
    · intro f hf
      simp only [List.map_cons, List.mem_cons, not_or] at hf
      rw [hF f hf.2, hT]
      simp [SpatialSpanIdStore.WriteSpanId, hf.1]
    · intro hnd p hp
      simp only [List.map_cons, List.nodup_cons] at hnd
      simp only [List.enumFrom, List.mem_cons] at hp
      rcases hp with rfl | hp
      · rw [hF _ hnd.1, hT]
        simp [SpatialSpanIdStore.WriteSpanId]
      · have := hN hnd.2 p (by rw [hT]; simpa using hp)
        exact this

/-- The field ids of the updates the store returns are the fields the op
touches, each once. -/
theorem store_ComponentUpdate_fields (env : Env) (s : SpatialSpanIdStore) (Op : ComponentUpdateOp) :
    (s.ComponentUpdate env Op).map (fun u => u.FieldId) = Op.fields.dedup := by
  simp [SpatialSpanIdStore.ComponentUpdate, Function.comp_def]

/-- The function `Enable` leaves the byte counter of every tracer object as it
was: it has no statement that assigns `BytesWrittenToStream`. -/
theorem Enable_keeps_BytesWrittenToStream (env : Env) (w : World) (self : Nat)
    (FileName Now : String) (DirOk : Bool) (r : Nat) :
    ((Enable env w self FileName Now DirOk).Tracers r).BytesWrittenToStream
      = (w.Tracers r).BytesWrittenToStream := by
  rw [Enable_Tracers]
  split <;> simp_all

/-- After `Enable` the tracer is the registered one and `IsEnabled()` is true. -/
theorem Enable_registers_and_enables (env : Env) (w : World) (self : Nat)
    (FileName Now : String) (DirOk : Bool) :
    (Enable env w self FileName Now DirOk).Guard = some self ∧
      ((Enable env w self FileName Now DirOk).Tracers self).bEnabled = true := by
  refine ⟨Enable_Guard env w self FileName Now DirOk, ?_⟩
  rw [Enable_Tracers]
  simp

/-- The constructor with tracing enabled in the settings, on an object whose
byte counter is 0 from its initialiser: the tracer is registered, enabled,
has the configured maximum file size and a byte counter of 0. -/
theorem construct_enabled (env : Env) (w : World) (self : Nat) (WorkerId Now : String)
    (DirOk : Bool) (S : USpatialGDKSettings) (hS : S.bEventTracingEnabled = true)
    (h0 : (w.Tracers self).BytesWrittenToStream = 0) :
    (SpatialEventTracer.construct env w self WorkerId (some S) Now DirOk).Guard = some self ∧
      ((SpatialEventTracer.construct env w self WorkerId (some S) Now DirOk).Tracers self).bEnabled
        = true ∧
      ((SpatialEventTracer.construct env w self WorkerId (some S) Now DirOk).Tracers self).MaxFileSize
        = S.MaxEventTracingFileSizeBytes ∧
      ((SpatialEventTracer.construct env w self WorkerId (some S) Now DirOk).Tracers
        self).BytesWrittenToStream = 0 := by
  simp only [SpatialEventTracer.construct, hS, if_true]
  refine ⟨Enable_Guard _ _ _ _ _ _, ?_, ?_, ?_⟩
  · rw [Enable_Tracers]; simp
  · rw [Enable_Tracers]; simp
  · rw [Enable_keeps_BytesWrittenToStream]; simpa using h0

/-- While no tracer is registered, any number of callbacks leaves the world as
it is. -/
theorem run_callbacks_unregistered (env : Env) (Items : List Trace_Item) (w : World)
    (h : w.Guard = none) : run env w (Items.map Step.TraceCallback) = w := by
  induction Items with
  | nil => rfl
  | cons Item rest ih =>
    have h1 : TraceCallback env w Item = w := by simp [TraceCallback, h]
    simpa [run, step, h1] using ih

/-- The number of characters `SpanIdToString` produces for a list of bytes: one
per byte, and one more for every byte that is at least 16. -/
theorem sprintf_0x_flatMap_length (l : List (Fin 256)) :
    (l.flatMap fun b => sprintf_0x b.val).length
      = l.length + (l.filter fun b => decide (16 ≤ b.val)).length := by
  induction l with
  | nil => rfl
  | cons b rest ih =>
    rw [List.flatMap_cons, List.length_append, ih, List.filter_cons, List.length_cons]
    by_cases hb : b.val < 16
    · have : ¬ 16 ≤ b.val := by omega
      simp only [sprintf_0x, hb, this, if_true, decide_False, List.length_singleton]
      simp only [Bool.false_eq_true, if_false]
      omega
    · have : 16 ≤ b.val := by omega
      simp only [sprintf_0x, hb, this, if_false, decide_True, if_true, List.length_cons,
        List.length_nil]
      omega

/-- The length of the string `SpanIdToString` returns: 16 plus the number of
bytes that are at least 16, so 32 only when no byte is below 16. -/
theorem SpanIdToString_length (SpanId : Trace_SpanId) :
    (SpanIdToString SpanId).length
      = 16 + (SpanId.data.filter fun b => decide (16 ≤ b.val)).length := by
  simp only [SpanIdToString, String.length]
  rw [sprintf_0x_flatMap_length, SpanId.size_eq]

/-- The builder function `AddKeyValue` keeps the type tag. -/
theorem AddKeyValue_Type (b : FSpatialTraceEventBuilder) (Key Value : String) :
    (b.AddKeyValue Key Value).SpatialTraceEvent.Type_ = b.SpatialTraceEvent.Type_ := rfl

/-- The builder function `AddObject` keeps the type tag. -/
theorem AddObject_Type (t : AttributeTexts) (b : FSpatialTraceEventBuilder) (Key : String)
    (Object : Option UObject) :
    (b.AddObject t Key Object).SpatialTraceEvent.Type_ = b.SpatialTraceEvent.Type_ := by
  cases Object with
  | none => rfl
  | some o =>
    cases h : o.ActorTranslation <;>
      simp [FSpatialTraceEventBuilder.AddObject, h, AddKeyValue_Type]

/-- The type tag of the record each static function of the catalog returns. -/
theorem StaticCall_event_Type (t : AttributeTexts) (c : StaticCall) :
    (c.event t).Type_ =
      match c with
      | .ProcessRPC _ _ => GDK_EVENT_NAMESPACE ++ "process_rpc"
      | .SendRPC _ _ => GDK_EVENT_NAMESPACE ++ "send_rpc"
      | .QueueRPC => "queue_rpc"
      | .RetryRPC => "retry_rpc"
      | .PropertyUpdate _ _ _ _ => GDK_EVENT_NAMESPACE ++ "property_update"
      | .MergeComponentField _ _ _ => GDK_EVENT_NAMESPACE ++ "merge_component_field"
      | .MergeComponent _ _ => GDK_EVENT_NAMESPACE ++ "merge_component"
      | .SendCommandRequest _ _ => GDK_EVENT_NAMESPACE ++ "send_command_request"
      | .RecieveCommandRequest _ _ => GDK_EVENT_NAMESPACE ++ "recieve_command_request"
      | .RecieveCommandRequest2 _ _ _ _ _ _ => GDK_EVENT_NAMESPACE ++ "recieve_command_request"
      | .SendCommandResponse _ _ => GDK_EVENT_NAMESPACE ++ "send_command_response"
      | .RecieveCommandResponse _ _ => GDK_EVENT_NAMESPACE ++ "recieve_command_response"
      | .RecieveCommandResponse2 _ _ _ => GDK_EVENT_NAMESPACE ++ "recieve_command_response"
      | .RecieveCommandResponse3 _ _ _ _ _ => GDK_EVENT_NAMESPACE ++ "recieve_command_response"
      | .SendRemoveEntity _ _ => GDK_EVENT_NAMESPACE ++ "send_remove_entity"
      | .RecieveRemoveEntity _ _ => GDK_EVENT_NAMESPACE ++ "recieve_remove_entity"
      | .SendCreateEntity _ _ => GDK_EVENT_NAMESPACE ++ "send_create_entity"
      | .RecieveCreateEntity _ _ => GDK_EVENT_NAMESPACE ++ "recieve_create_entity"
      | .RecieveCreateEntitySuccess _ _ => GDK_EVENT_NAMESPACE ++ "recieve_create_entity_success"
      | .SendRetireEntity _ _ => GDK_EVENT_NAMESPACE ++ "send_retire_entity"
      | .AuthorityIntentUpdate _ _ => GDK_EVENT_NAMESPACE ++ "authority_intent_update"
      | .AuthorityLossImminent _ _ => GDK_EVENT_NAMESPACE ++ "authority_loss_imminent"
      | .ComponentUpdate _ _ _ _ => GDK_EVENT_NAMESPACE ++ "component_update"
      | .GenericMessage _ => GDK_EVENT_NAMESPACE ++ "generic_message" := by
  cases c <;>
    simp only [StaticCall.event, FSpatialTraceEventBuilder.GetEvent, AddObject_Type,
      AddKeyValue_Type, FSpatialTraceEventBuilder.ofType, FSpatialTraceEventBuilder.ofTypeMessage,
      FSpatialTraceEventBuilder.AddFunction, FSpatialTraceEventBuilder.AddEntityId,
      FSpatialTraceEventBuilder.AddComponentId, FSpatialTraceEventBuilder.AddFieldId,
      FSpatialTraceEventBuilder.AddNewWorkerId, FSpatialTraceEventBuilder.AddCommand,
      FSpatialTraceEventBuilder.AddRequestID, FSpatialTraceEventBuilder.AddNetRole,
      FSpatialTraceEventBuilder.ProcessRPC, FSpatialTraceEventBuilder.SendRPC,
      FSpatialTraceEventBuilder.QueueRPC, FSpatialTraceEventBuilder.RetryRPC,
      FSpatialTraceEventBuilder.PropertyUpdate, FSpatialTraceEventBuilder.MergeComponentField,
      FSpatialTraceEventBuilder.MergeComponent, FSpatialTraceEventBuilder.SendCommandRequest,
      FSpatialTraceEventBuilder.RecieveCommandRequest,
      FSpatialTraceEventBuilder.RecieveCommandRequest2,
      FSpatialTraceEventBuilder.SendCommandResponse,
      FSpatialTraceEventBuilder.RecieveCommandResponse,
      FSpatialTraceEventBuilder.RecieveCommandResponse2,
      FSpatialTraceEventBuilder.RecieveCommandResponse3,
      FSpatialTraceEventBuilder.SendRemoveEntity, FSpatialTraceEventBuilder.RecieveRemoveEntity,
      FSpatialTraceEventBuilder.SendCreateEntity, FSpatialTraceEventBuilder.RecieveCreateEntity,
      FSpatialTraceEventBuilder.RecieveCreateEntitySuccess,
      FSpatialTraceEventBuilder.SendRetireEntity,
      FSpatialTraceEventBuilder.AuthorityIntentUpdate,
      FSpatialTraceEventBuilder.AuthorityLossImminent,
      FSpatialTraceEventBuilder.ComponentUpdate, FSpatialTraceEventBuilder.GenericMessage]

/-- The keys of a builder's record after `AddKeyValue`. -/
theorem AddKeyValue_Keys (b : FSpatialTraceEventBuilder) (Key Value : String) :
    (b.AddKeyValue Key Value).SpatialTraceEvent.Keys = b.SpatialTraceEvent.Keys ++ [Key] := by
  simp [FSpatialTraceEventBuilder.AddKeyValue, FSpatialTraceEvent.AddData, FSpatialTraceEvent.Keys]

/-- The keys of a builder's record after `AddObject`: the key, and for an actor
the position key after it. -/
theorem AddObject_Keys (t : AttributeTexts) (b : FSpatialTraceEventBuilder) (Key : String)
    (Object : Option UObject) :
    (b.AddObject t Key Object).SpatialTraceEvent.Keys
      = b.SpatialTraceEvent.Keys ++ objectKeys Key Object := by
  cases Object with
  | none => simp [FSpatialTraceEventBuilder.AddObject, AddKeyValue_Keys, objectKeys, isPositioned]
  | some o =>
    cases h : o.ActorTranslation <;>
      simp [FSpatialTraceEventBuilder.AddObject, AddKeyValue_Keys, objectKeys, isPositioned, h]

/-- The attribute keys, in order, of the record each static function of the
catalog returns. -/
theorem StaticCall_event_Keys (t : AttributeTexts) (c : StaticCall) :
    (c.event t).Keys =
      match c with
      | .ProcessRPC Object _ => objectKeys "Object" Object ++ ["Function"]
      | .SendRPC Object _ => objectKeys "Object" Object ++ ["Function"]
      | .QueueRPC => []
      | .RetryRPC => []
      | .PropertyUpdate Object _ _ _ =>
        objectKeys "Object" Object ++ ["EntityId", "ComponentId", "PropertyName"]
      | .MergeComponentField _ _ _ => ["EntityId", "ComponentId", "FieldId"]
      | .MergeComponent _ _ => ["EntityId", "ComponentId"]
      | .SendCommandRequest _ _ => ["Command", "RequestID"]
      | .RecieveCommandRequest _ _ => ["Command", "RequestID"]
      | .RecieveCommandRequest2 _ Actor TargetObject _ _ _ =>
        ["Command"] ++ objectKeys "Object" Actor ++ objectKeys "TargetObject" TargetObject ++ ["Function", "TraceId", "RequestID"]
      | .SendCommandResponse _ _ => ["RequestID", "Success"]
      | .RecieveCommandResponse _ _ => ["Command", "RequestID"]
      | .RecieveCommandResponse2 Actor _ _ => objectKeys "Object" Actor ++ ["RequestID", "Success"]
      | .RecieveCommandResponse3 Actor TargetObject _ _ _ =>
        objectKeys "Object" Actor ++ objectKeys "TargetObject" TargetObject ++ ["Function", "RequestID", "Success"]
      | .SendRemoveEntity Object _ => objectKeys "Object" Object ++ ["EntityId"]
      | .RecieveRemoveEntity Object _ => objectKeys "Object" Object ++ ["EntityId"]
      | .SendCreateEntity Object _ => objectKeys "Object" Object ++ ["EntityId"]
      | .RecieveCreateEntity Object _ => objectKeys "Object" Object ++ ["EntityId"]
      | .RecieveCreateEntitySuccess Object _ => objectKeys "Object" Object ++ ["EntityId"]
      | .SendRetireEntity Object _ => objectKeys "Object" Object ++ ["EntityId"]
      | .AuthorityIntentUpdate _ Object => objectKeys "Object" Object ++ ["NewWorkerId"]
      | .AuthorityLossImminent Object _ => objectKeys "Object" Object ++ ["NetRole"]
      | .ComponentUpdate Object TargetObject _ _ =>
        objectKeys "Object" Object ++ objectKeys "TargetObject" TargetObject ++ ["EntityId", "ComponentId"]
      | .GenericMessage _ => [] := by
  cases c <;>
    simp [StaticCall.event, FSpatialTraceEventBuilder.GetEvent, AddObject_Keys, AddKeyValue_Keys,
      FSpatialTraceEventBuilder.ofType, FSpatialTraceEventBuilder.ofTypeMessage,
      FSpatialTraceEventBuilder.AddFunction, FSpatialTraceEventBuilder.AddEntityId,
      FSpatialTraceEventBuilder.AddComponentId, FSpatialTraceEventBuilder.AddFieldId,
      FSpatialTraceEventBuilder.AddNewWorkerId, FSpatialTraceEventBuilder.AddCommand,
      FSpatialTraceEventBuilder.AddRequestID, FSpatialTraceEventBuilder.AddNetRole,
      FSpatialTraceEventBuilder.ProcessRPC, FSpatialTraceEventBuilder.SendRPC,
      FSpatialTraceEventBuilder.QueueRPC, FSpatialTraceEventBuilder.RetryRPC,
      FSpatialTraceEventBuilder.PropertyUpdate, FSpatialTraceEventBuilder.MergeComponentField,
      FSpatialTraceEventBuilder.MergeComponent, FSpatialTraceEventBuilder.SendCommandRequest,
      FSpatialTraceEventBuilder.RecieveCommandRequest,
      FSpatialTraceEventBuilder.RecieveCommandRequest2,
      FSpatialTraceEventBuilder.SendCommandResponse,
      FSpatialTraceEventBuilder.RecieveCommandResponse,
      FSpatialTraceEventBuilder.RecieveCommandResponse2,
      FSpatialTraceEventBuilder.RecieveCommandResponse3,
      FSpatialTraceEventBuilder.SendRemoveEntity, FSpatialTraceEventBuilder.RecieveRemoveEntity,
      FSpatialTraceEventBuilder.SendCreateEntity, FSpatialTraceEventBuilder.RecieveCreateEntity,
      FSpatialTraceEventBuilder.RecieveCreateEntitySuccess,
      FSpatialTraceEventBuilder.SendRetireEntity,
      FSpatialTraceEventBuilder.AuthorityIntentUpdate,
      FSpatialTraceEventBuilder.AuthorityLossImminent,
      FSpatialTraceEventBuilder.ComponentUpdate, FSpatialTraceEventBuilder.GenericMessage]
  all_goals rfl

/-- Two calls of the same static function, overloads counted apart, return
records with the same type tag, and with the same keys when their object
arguments agree on which are positioned entities. -/
theorem StaticCall_same_overload (t : AttributeTexts) (c1 c2 : StaticCall)
    (h : c1.overload = c2.overload) :
    (c1.event t).Type_ = (c2.event t).Type_ ∧
      (c1.positioned = c2.positioned → (c1.event t).Keys = (c2.event t).Keys) := by
  rw [StaticCall_event_Type, StaticCall_event_Type, StaticCall_event_Keys, StaticCall_event_Keys]
  cases c1 <;> cases c2 <;>
    first
      | (simp only [StaticCall.overload] at h; omega)
      | (refine ⟨rfl, fun hp => ?_⟩
         simp only [StaticCall.positioned, List.cons.injEq, and_true] at hp
         simp [objectKeys, hp])

/-- Two records of the catalog with the same type tag come from the same static
function, unless the tag is one of the two that several overloads share. -/
theorem StaticCall_same_tag (t : AttributeTexts) (c1 c2 : StaticCall)
    (h : (c1.event t).Type_ = (c2.event t).Type_) :
    c1.overload = c2.overload ∨
      (c1.event t).Type_ = GDK_EVENT_NAMESPACE ++ "recieve_command_request" ∨
      (c1.event t).Type_ = GDK_EVENT_NAMESPACE ++ "recieve_command_response" := by
  rw [StaticCall_event_Type, StaticCall_event_Type] at h
  rw [StaticCall_event_Type]
  revert h
  cases c1 <;> cases c2 <;> simp only [StaticCall.overload] <;> decide

/-! ## The claims -/

/-- C1. Byte budget: on a tracer object whose byte counter starts at 0 and whose
maximum file size is `N`, after every initial part of every sequence of
`Enable`, `Disable` and `TraceCallback` invocations the counter
`BytesWrittenToStream` is at most `N`. -/
theorem byte_budget_never_exceeded (env : Env) (w : World) (r N : Nat) (steps : List Step)
    (h0 : (w.Tracers r).BytesWrittenToStream = 0) (hN : (w.Tracers r).MaxFileSize = N) (k : Nat) :
    ((run env w (steps.take k)).Tracers r).BytesWrittenToStream ≤ N := by
  have := (run_budget env (steps.take k) w r (by rw [h0]; exact Nat.zero_le _)).1
  rwa [hN] at this

/-- The budget of 1000 bytes holds after the third of three 500-byte callbacks:
two were written and fill the budget exactly, the third was dropped. -/
theorem byte_budget_never_exceeded_witness :
    ((run exampleEnv freshWorld (exampleSteps.take 4)).Tracers 0).BytesWrittenToStream ≤ 1000 ∧
      ((run exampleEnv freshWorld (exampleSteps.take 4)).Tracers 0).BytesWrittenToStream = 1000 :=
  ⟨byte_budget_never_exceeded exampleEnv freshWorld 0 1000 exampleSteps rfl rfl 4, by decide⟩

/-- C2. While a tracer is registered, enabled and has an open stream,
`TraceCallback` hands the item to the serializer and advances the byte counter
by the item's serialized size exactly when the code's sum
`BytesWrittenToStream + ItemSize`, computed in the counter's unsigned type, is
at most `MaxFileSize` (equality included); otherwise no call is made and no
tracer object changes. Whenever the sum does not wrap, this is the plain sum:
the item is written and the counter grows by exactly `ItemSize` if and only if
`BytesWrittenToStream + ItemSize ≤ MaxFileSize`. -/
theorem TraceCallback_writes_iff_within_budget (env : Env) (w : World) (Item : Trace_Item)
    (self Stream : Nat) (hG : w.Guard = some self) (hE : (w.Tracers self).bEnabled = true)
    (hS : (w.Tracers self).Stream = some Stream) :
    (((TraceCallback env w Item).Calls =
          w.Calls ++ [.Trace_SerializeItemToStream Stream Item (ItemSizeOf env Item)] ∧
        ((TraceCallback env w Item).Tracers self).BytesWrittenToStream =
          counterAdd env (w.Tracers self).BytesWrittenToStream (ItemSizeOf env Item)) ↔
      counterAdd env (w.Tracers self).BytesWrittenToStream (ItemSizeOf env Item)
        ≤ (w.Tracers self).MaxFileSize) ∧
    (¬ counterAdd env (w.Tracers self).BytesWrittenToStream (ItemSizeOf env Item)
        ≤ (w.Tracers self).MaxFileSize →
      (TraceCallback env w Item).Calls = w.Calls ∧ (TraceCallback env w Item).Tracers = w.Tracers) ∧
    ((w.Tracers self).BytesWrittenToStream + ItemSizeOf env Item < 2 ^ env.CounterBits →
      (((TraceCallback env w Item).Calls =
            w.Calls ++ [.Trace_SerializeItemToStream Stream Item (ItemSizeOf env Item)] ∧
          ((TraceCallback env w Item).Tracers self).BytesWrittenToStream =
            (w.Tracers self).BytesWrittenToStream + ItemSizeOf env Item) ↔
        (w.Tracers self).BytesWrittenToStream + ItemSizeOf env Item ≤ (w.Tracers self).MaxFileSize)) := by
  have hwrap : (w.Tracers self).BytesWrittenToStream + ItemSizeOf env Item < 2 ^ env.CounterBits →
      counterAdd env (w.Tracers self).BytesWrittenToStream (ItemSizeOf env Item) =
        (w.Tracers self).BytesWrittenToStream + ItemSizeOf env Item :=
    fun h => Nat.mod_eq_of_lt h
  by_cases hfit : counterAdd env (w.Tracers self).BytesWrittenToStream (ItemSizeOf env Item)
      ≤ (w.Tracers self).MaxFileSize
  · have hT : (TraceCallback env w Item).Calls =
          w.Calls ++ [.Trace_SerializeItemToStream Stream Item (ItemSizeOf env Item)] ∧
        ((TraceCallback env w Item).Tracers self).BytesWrittenToStream =
          counterAdd env (w.Tracers self).BytesWrittenToStream (ItemSizeOf env Item) := by
      cases hd : debugLine Item <;>
        by_cases hc : env.Trace_SerializeItemToStream Stream Item (ItemSizeOf env Item) = 1 <;>
        simp [TraceCallback, hG, hE, hS, hfit, hd, hc]
    refine ⟨⟨fun _ => hfit, fun _ => hT⟩, fun h => absurd hfit h, fun hlt => ?_⟩
    rw [← hwrap hlt]
    exact ⟨fun _ => hfit, fun _ => hT⟩
  · have hT : (TraceCallback env w Item).Calls = w.Calls ∧
        (TraceCallback env w Item).Tracers = w.Tracers := by
      cases hd : debugLine Item <;> simp [TraceCallback, hG, hE, hS, hfit, hd]
    refine ⟨⟨fun h => ?_, fun h => absurd h hfit⟩, fun _ => hT, fun hlt => ⟨fun h => ?_, fun h => ?_⟩⟩
    · have := h.1
      rw [hT.1] at this
      simp at this
    · have := h.1
      rw [hT.1] at this
      simp at this
    · rw [← hwrap hlt] at h
      exact absurd h hfit

/-- With 500 of 1000 bytes used, a 500-byte item fills the budget exactly and is
written: the serializer is called and the counter grows by the item's size. -/
theorem TraceCallback_writes_iff_within_budget_witness :
    ((halfFullWorld.Tracers 0).BytesWrittenToStream = 500 ∧
        (halfFullWorld.Tracers 0).MaxFileSize = 1000 ∧
        ItemSizeOf exampleEnv (.other 0) = 500) ∧
      ((TraceCallback exampleEnv halfFullWorld (.other 0)).Calls =
          halfFullWorld.Calls
            ++ [.Trace_SerializeItemToStream 2 (.other 0) (ItemSizeOf exampleEnv (.other 0))] ∧
        ((TraceCallback exampleEnv halfFullWorld (.other 0)).Tracers 0).BytesWrittenToStream =
          (halfFullWorld.Tracers 0).BytesWrittenToStream + ItemSizeOf exampleEnv (.other 0)) :=
  ⟨by decide,
    ((TraceCallback_writes_iff_within_budget exampleEnv halfFullWorld (.other 0) 0 2
      (by decide) (by decide) (by decide)).2.2 (by decide)).mpr (by decide)⟩

/-- C3. On a tracer whose `IsEnabled()` is false, `TraceEvent` returns an absent
span id and leaves the whole world as it was: no span is allocated, no call
reaches the engine, and the byte counter keeps its value. -/
theorem TraceEvent_disabled_returns_absent (env : Env) (w : World) (self : Nat)
    (EventMessage : FEventMessage) (Causes : List Trace_SpanId)
    (h : (w.Tracers self).bEnabled = false) :
    TraceEvent env w self EventMessage Causes = (none, w) := by
  simp [TraceEvent, h]

/-- After `Enable` and `Disable`, tracing an event with a cause returns absent
and changes nothing. -/
theorem TraceEvent_disabled_returns_absent_witness :
    ((Disable enabledWorld 0).Tracers 0).bEnabled = false ∧
      TraceEvent exampleEnv (Disable enabledWorld 0) 0 exampleMessage [.ofByte 5]
        = (none, Disable enabledWorld 0) :=
  ⟨by decide,
    TraceEvent_disabled_returns_absent exampleEnv (Disable enabledWorld 0) 0 exampleMessage
      [.ofByte 5] (by decide)⟩

/-- C4, evaluated on the code. Tracer object 0 is enabled and sampling turns the
event down: `TraceEvent` allocates span number 0 through the engine and adds
no event, but the optional it returns is unset, so the caller does not learn
the id of the span that was allocated. -/
theorem TraceEvent_sampled_out_returns_unset :
    (enabledWorld.Tracers 0).bEnabled = true ∧
      exampleEnv.Trace_EventTracer_ShouldSampleEvent
        { span_id := .ofByte 0, unix_timestamp_millis := 0, message := rejectedMessage.Message,
          type := rejectedMessage.Type_, data := [] } = false ∧
      (TraceEvent exampleEnv enabledWorld 0 rejectedMessage []).1 = none ∧
      (TraceEvent exampleEnv enabledWorld 0 rejectedMessage []).2.SpansAllocated
        = enabledWorld.SpansAllocated + 1 ∧
      (TraceEvent exampleEnv enabledWorld 0 rejectedMessage []).2.Calls
        = enabledWorld.Calls ++ [.Trace_EventTracer_AddSpan (some 1) [] (.ofByte 0)] := by
  refine ⟨by decide, by decide, ?_⟩
  rw [TraceEvent_rejected exampleEnv enabledWorld 0 rejectedMessage [] (by decide) (by decide)]
  exact ⟨rfl, rfl, by decide⟩

/-- C5. `TraceCallback` makes no call and changes no tracer object (so no byte
counter) whenever no tracer is registered, or the registered tracer is not
enabled, or its stream is not open. Such a state is reached by `Enable` on a
tracer without a stream when the directory cannot be created, although
`IsEnabled()` is then true; and after `Disable` no tracer is registered, so a
callback leaves the world exactly as it was. -/
theorem TraceCallback_drops_without_open_stream (env : Env) (w : World) (Item : Trace_Item) :
    ((w.Guard = none ∨ ∃ self, w.Guard = some self ∧
          ((w.Tracers self).bEnabled = false ∨ (w.Tracers self).Stream = none)) →
        (TraceCallback env w Item).Calls = w.Calls ∧
          (TraceCallback env w Item).Tracers = w.Tracers) ∧
      (∀ (self : Nat) (FileName Now : String), (w.Tracers self).Stream = none →
        ((Enable env w self FileName Now false).Tracers self).bEnabled = true ∧
          ((Enable env w self FileName Now false).Tracers self).Stream = none ∧
          (TraceCallback env (Enable env w self FileName Now false) Item).Calls
            = (Enable env w self FileName Now false).Calls ∧
          (TraceCallback env (Enable env w self FileName Now false) Item).Tracers
            = (Enable env w self FileName Now false).Tracers) ∧
      (∀ self : Nat, TraceCallback env (Disable w self) Item = Disable w self) := by
  have drop : ∀ v : World, (v.Guard = none ∨ ∃ self, v.Guard = some self ∧
        ((v.Tracers self).bEnabled = false ∨ (v.Tracers self).Stream = none)) →
      (TraceCallback env v Item).Calls = v.Calls ∧ (TraceCallback env v Item).Tracers = v.Tracers := by
    intro v h
    rcases h with hG | ⟨self, hG, hE | hS⟩
    · simp [TraceCallback, hG]
    · simp [TraceCallback, hG, hE]
    · cases hE : (v.Tracers self).bEnabled <;> simp [TraceCallback, hG, hE, hS]
  refine ⟨drop w, fun self FileName Now hS => ?_, fun self => ?_⟩
  · have hT := Enable_Tracers env w self FileName Now false self
    have hG := Enable_Guard env w self FileName Now false
    have hS' : ((Enable env w self FileName Now false).Tracers self).Stream = none := by
      rw [hT]; simpa using hS
    have hE' : ((Enable env w self FileName Now false).Tracers self).bEnabled = true := by
      rw [hT]; simp
    exact ⟨hE', hS', drop _ (Or.inr ⟨self, hG, Or.inr hS'⟩)⟩
  · simp [TraceCallback, Disable_Guard]

/-- A fresh tracer whose `Enable` could not create the directory is enabled and
has no stream; a callback for it is dropped. -/
theorem TraceCallback_drops_without_open_stream_witness :
    (enabledNoStreamWorld.Guard = some 0 ∧ (enabledNoStreamWorld.Tracers 0).bEnabled = true ∧
        (enabledNoStreamWorld.Tracers 0).Stream = none) ∧
      (TraceCallback exampleEnv enabledNoStreamWorld (.other 0)).Calls = enabledNoStreamWorld.Calls ∧
      (TraceCallback exampleEnv enabledNoStreamWorld (.other 0)).Tracers
        = enabledNoStreamWorld.Tracers :=
  ⟨by decide,
    (TraceCallback_drops_without_open_stream exampleEnv enabledNoStreamWorld (.other 0)).1
      (Or.inr ⟨0, by decide, Or.inr (by decide)⟩)⟩

/-- C7, evaluated on the code. Tracer object 0 is enabled, sampling turns the
merge event down, and an update touches field 1 of component 3 on entity 7:
`ComponentUpdate` allocates the merge span, gets an unset optional back from
`TraceEvent` and calls `GetValue()` on it; the store entry of the field is not
written. -/
theorem ComponentUpdate_sampled_out_reads_unset_optional :
    ∃ w', ComponentUpdate rejectingEnv enabledWorld 0 exampleUpdate
        = .error (.GetValueOnUnsetOptional, w') ∧
      w'.SpansAllocated = enabledWorld.SpansAllocated + 1 ∧
      (w'.Tracers 0).SpanIdStore.Entries ⟨7, 3⟩ 1 = none :=
  ⟨_, rfl, rfl, rfl⟩

/-- C9 as stated fails. Engine 1 has the ambient span of an outer guard (last
byte 10); an inner guard with the span of last byte 11 is constructed and
destroyed; afterwards the engine has no ambient span, not the outer guard's. -/
theorem scoped_guard_does_not_restore_outer_span :
    (SpatialScopedActiveSpanId.construct enabledWorld 0 (some (.ofByte 10))).2.ActiveSpanId 1
        = some (.ofByte 10) ∧
      (withScopedActiveSpanId
        (SpatialScopedActiveSpanId.construct enabledWorld 0 (some (.ofByte 10))).2
        0 (some (.ofByte 11)) id).ActiveSpanId 1 = none ∧
      (withScopedActiveSpanId
        (SpatialScopedActiveSpanId.construct enabledWorld 0 (some (.ofByte 10))).2
        0 (some (.ofByte 11)) id).ActiveSpanId 1
        ≠ (SpatialScopedActiveSpanId.construct enabledWorld 0 (some (.ofByte 10))).2.ActiveSpanId 1 := by
  decide

/-- C9, amended. Constructing a `SpatialScopedActiveSpanId` on a tracer with
engine `e` and then destroying it leaves the engine without an ambient active
span when the guard was given a span, and leaves the world untouched when it
was given none; other engines keep their ambient span. So the ambient span
from before construction is back exactly when the guard had no span or there
was no ambient span before. -/
theorem scoped_guard_exit_clears_active_span (w : World) (InEventTracer e : Nat)
    (InCurrentSpanId : Option Trace_SpanId) (h : (w.Tracers InEventTracer).EventTracer = some e) :
    (InCurrentSpanId.isSome = true →
        (withScopedActiveSpanId w InEventTracer InCurrentSpanId id).ActiveSpanId e = none) ∧
      (InCurrentSpanId = none → withScopedActiveSpanId w InEventTracer InCurrentSpanId id = w) ∧
      (∀ e', e' ≠ e →
        (withScopedActiveSpanId w InEventTracer InCurrentSpanId id).ActiveSpanId e'
          = w.ActiveSpanId e') ∧
      ((withScopedActiveSpanId w InEventTracer InCurrentSpanId id).ActiveSpanId e = w.ActiveSpanId e ↔
        (InCurrentSpanId = none ∨ w.ActiveSpanId e = none)) := by
  cases InCurrentSpanId with
  | none =>
    simp [withScopedActiveSpanId, SpatialScopedActiveSpanId.construct,
      SpatialScopedActiveSpanId.destroy]
  | some s =>
    have hA : (withScopedActiveSpanId w InEventTracer (some s) id).ActiveSpanId e = none := by
      simp [withScopedActiveSpanId, SpatialScopedActiveSpanId.construct,
        SpatialScopedActiveSpanId.destroy, Trace_EventTracer_SetActiveSpanId,
        Trace_EventTracer_ClearActiveSpanId, h]
    refine ⟨fun _ => hA, fun hn => absurd hn (by simp), fun e' he => ?_, ?_⟩
    · simp [withScopedActiveSpanId, SpatialScopedActiveSpanId.construct,
        SpatialScopedActiveSpanId.destroy, Trace_EventTracer_SetActiveSpanId,
        Trace_EventTracer_ClearActiveSpanId, h, Function.update_apply, he]
    · rw [hA]
      simp [eq_comm]

/-- On the enabled tracer with no ambient span before, a guard with a span
leaves no ambient span behind. -/
theorem scoped_guard_exit_clears_active_span_witness :
    (enabledWorld.Tracers 0).EventTracer = some 1 ∧
      (withScopedActiveSpanId enabledWorld 0 (some (.ofByte 11)) id).ActiveSpanId 1 = none :=
  ⟨by decide,
    (scoped_guard_exit_clears_active_span enabledWorld 0 1 (some (.ofByte 11)) (by decide)).1 rfl⟩

/-- C10 as stated fails. Tracer object 0 is enabled (engine handle 1) and
`Disable` is called twice: the second call is not a no-op, it calls
`Trace_EventTracer_Disable` and `Trace_EventTracer_Destroy` on engine 1 once
more. -/
theorem Disable_second_call_reaches_engine :
    (enabledWorld.Tracers 0).EventTracer = some 1 ∧
      (Disable (Disable enabledWorld 0) 0).Calls =
        (Disable enabledWorld 0).Calls
          ++ [.Trace_EventTracer_Disable (some 1), .Trace_EventTracer_Destroy (some 1)] ∧
      (Disable (Disable enabledWorld 0) 0).Calls ≠ (Disable enabledWorld 0).Calls := by
  decide

/-- C10, amended. A second `Disable` right after the first leaves every tracer
object (enabled flag, stream, engine handle, byte counter) and the
registration slot as the first left them, and it calls
`Trace_EventTracer_Disable` and `Trace_EventTracer_Destroy` once more on the
tracer's engine handle. The `IsEnabled()` check is made by the caller: the
destructor of a tracer that was disabled before does nothing. -/
theorem Disable_twice_repeats_engine_calls (w : World) (self : Nat) :
    (Disable (Disable w self) self).Tracers = (Disable w self).Tracers ∧
      (Disable (Disable w self) self).Guard = (Disable w self).Guard ∧
      (Disable (Disable w self) self).Calls =
        (Disable w self).Calls
          ++ [.Trace_EventTracer_Disable (w.Tracers self).EventTracer,
              .Trace_EventTracer_Destroy (w.Tracers self).EventTracer] ∧
      (Disable (Disable w self) self).Calls ≠ (Disable w self).Calls ∧
      SpatialEventTracer.destruct (Disable w self) self = Disable w self := by
  have hC : (Disable (Disable w self) self).Calls =
      (Disable w self).Calls
        ++ [.Trace_EventTracer_Disable (w.Tracers self).EventTracer,
            .Trace_EventTracer_Destroy (w.Tracers self).EventTracer] := by
    rw [Disable_Calls (Disable w self) self]
    simp [Disable_Tracers]
  refine ⟨?_, by simp [Disable_Guard], hC, ?_, destruct_after_Disable w self⟩
  · funext r
    by_cases hr : r = self <;> simp [Disable_Tracers, hr]
  · rw [hC]
    simp

/-- C6. Causal chain continuity. On an enabled tracer whose sampling accepts the
merge event, `ComponentUpdate` completes; the spans it has the engine allocate are, in
order, one merge span per update the store returned, with cause list exactly
`[NewSpanId, OldSpanId]`; each such merge span is the store entry of its field
under (entity, component, field) afterwards; and for the next update of the
same component that touches the field, the store returns that merge span as the
field's `OldSpanId`. -/
theorem ComponentUpdate_merge_chain_continuity (env : Env) (w : World) (self : Nat)
    (Op : ComponentUpdateOp) (hE : (w.Tracers self).bEnabled = true)
    (hS : ∀ (FieldId : Nat) (span : Trace_SpanId),
      env.Trace_EventTracer_ShouldSampleEvent
        { span_id := span, unix_timestamp_millis := 0,
          message := (env.FEventMergeComponentFieldUpdate Op.entity_id Op.component_id FieldId).Message,
          type := (env.FEventMergeComponentFieldUpdate Op.entity_id Op.component_id FieldId).Type_,
          data := [] } = true) :
    ∃ w', ComponentUpdate env w self Op = .ok w' ∧
      w'.Calls.filterMap Call.addedSpan =
        w.Calls.filterMap Call.addedSpan
          ++ (((w.Tracers self).SpanIdStore.ComponentUpdate env Op).enumFrom w.SpansAllocated).map
            (fun p =>
              { id := env.Trace_EventTracer_AddSpan p.1 [p.2.NewSpanId, p.2.OldSpanId],
                causes := [p.2.NewSpanId, p.2.OldSpanId] }) ∧
      ∀ p ∈ ((w.Tracers self).SpanIdStore.ComponentUpdate env Op).enumFrom w.SpansAllocated,
        (w'.Tracers self).SpanIdStore.Entries ⟨Op.entity_id, Op.component_id⟩ p.2.FieldId =
            some (env.Trace_EventTracer_AddSpan p.1 [p.2.NewSpanId, p.2.OldSpanId]) ∧
          ∀ Next : ComponentUpdateOp, Next.entity_id = Op.entity_id →
            Next.component_id = Op.component_id → p.2.FieldId ∈ Next.fields →
            { FieldId := p.2.FieldId, NewSpanId := Next.span_id,
              OldSpanId := env.Trace_EventTracer_AddSpan p.1 [p.2.NewSpanId, p.2.OldSpanId] }
              ∈ (w'.Tracers self).SpanIdStore.ComponentUpdate env Next := by
  obtain ⟨w', hL, _, hC, _, hW⟩ :=
    ComponentUpdateLoop_accepted env self ⟨Op.entity_id, Op.component_id⟩ hS
      ((w.Tracers self).SpanIdStore.ComponentUpdate env Op) w hE
  refine ⟨w', hL, hC, fun p hp => ?_⟩
  have hEntry := hW (by rw [store_ComponentUpdate_fields]; exact List.nodup_dedup _) p hp
  refine ⟨hEntry, fun Next h1 h2 hf => ?_⟩
  simp only [SpatialSpanIdStore.ComponentUpdate, List.mem_map, List.mem_dedup]
  exact ⟨p.2.FieldId, hf, by simp [SpatialSpanIdStore.GetSpanId, h1, h2, hEntry]⟩

/-- The first update of field 1 of component 3 on entity 7 leaves the merge
span with last byte 0 as the field's entry. -/
theorem ComponentUpdate_merge_chain_continuity_witness :
    (enabledWorld.Tracers 0).bEnabled = true ∧
      ∃ w', ComponentUpdate exampleEnv enabledWorld 0 exampleUpdate = .ok w' ∧
        (w'.Tracers 0).SpanIdStore.Entries ⟨7, 3⟩ 1 = some (.ofByte 0) := by
  refine ⟨by decide, ?_⟩
  obtain ⟨w', h1, _, h3⟩ := ComponentUpdate_merge_chain_continuity exampleEnv enabledWorld 0
    exampleUpdate (by decide) (fun _ _ => rfl)
  exact ⟨w', h1, (h3 (0, ⟨1, .ofByte 200, .ofByte 255⟩) (by decide)).1⟩

/-- C11 as stated fails. Tracer object 0 has had a whole session (enabled, 1000
of 1000 bytes written, disabled) and is enabled again: it is registered,
`IsEnabled()` is true and it has a new stream, but `BytesWrittenToStream` is
still 1000, not 0, so the first item of the new session is dropped. -/
theorem Enable_again_keeps_old_byte_count :
    reenabledWorld.Guard = some 0 ∧
      (reenabledWorld.Tracers 0).bEnabled = true ∧
      (reenabledWorld.Tracers 0).Stream = some 4 ∧
      (reenabledWorld.Tracers 0).MaxFileSize = 1000 ∧
      (reenabledWorld.Tracers 0).BytesWrittenToStream = 1000 ∧
      (TraceCallback exampleEnv reenabledWorld (.other 0)).Calls = reenabledWorld.Calls := by
  decide

/-- C12, evaluated on the code. For the span id whose bytes are fifteen times
`0x00` and then `0x05`, `SpanIdToString` returns a string of 16 characters, one
per byte, not 32. -/
theorem SpanIdToString_short_for_small_bytes :
    SpanIdToString (.ofByte 5) = "0000000000000005" ∧
      (SpanIdToString (.ofByte 5)).length = 16 := by
  decide

/-- C13 as stated fails. The overloads of `RecieveCommandResponse` taking a
command and taking an actor return records with the same type tag and
different key sequences, and so do the two overloads of
`RecieveCommandRequest`; and one static function, `SendRPC`, returns
different key sequences for an actor and for an object that is not one. -/
theorem catalog_overloads_share_tag_not_keys :
    ((StaticCall.event exampleTexts (.RecieveCommandResponse "Fire" 1)).Type_
        = (StaticCall.event exampleTexts (.RecieveCommandResponse2 none 1 true)).Type_ ∧
      (StaticCall.event exampleTexts (.RecieveCommandResponse "Fire" 1)).Keys
        = ["Command", "RequestID"] ∧
      (StaticCall.event exampleTexts (.RecieveCommandResponse2 none 1 true)).Keys
        = ["Object", "RequestID", "Success"]) ∧
    ((StaticCall.event exampleTexts (.RecieveCommandRequest "Fire" 1)).Type_
        = (StaticCall.event exampleTexts (.RecieveCommandRequest2 "Fire" none none none 0 1)).Type_ ∧
      (StaticCall.event exampleTexts (.RecieveCommandRequest "Fire" 1)).Keys
        = ["Command", "RequestID"] ∧
      (StaticCall.event exampleTexts (.RecieveCommandRequest2 "Fire" none none none 0 1)).Keys
        = ["Command", "Object", "TargetObject", "Function", "TraceId", "RequestID"]) ∧
    ((StaticCall.event exampleTexts (.SendRPC (some examplePawn) none)).Type_
        = (StaticCall.event exampleTexts (.SendRPC (some exampleComponent) none)).Type_ ∧
      (StaticCall.event exampleTexts (.SendRPC (some examplePawn) none)).Keys
        = ["Object", "ObjectPosition", "Function"] ∧
      (StaticCall.event exampleTexts (.SendRPC (some exampleComponent) none)).Keys
        = ["Object", "Function"]) := by
  decide

/-- C13, amended. Two records returned by the same static function of the
catalog, overloads counted apart, have the same type tag, and the same ordered
sequence of attribute keys whenever their object arguments agree on which of
them are positioned entities (an actor adds a position key after its own).
Two records with the same type tag come from the same static function unless
the tag is `unreal_gdk.recieve_command_request` or
`unreal_gdk.recieve_command_response`, the two tags that overloads share. -/
theorem catalog_keys_fixed_per_static_function (t : AttributeTexts) (c1 c2 : StaticCall) :
    (c1.overload = c2.overload → (c1.event t).Type_ = (c2.event t).Type_) ∧
    (c1.overload = c2.overload → c1.positioned = c2.positioned →
      (c1.event t).Keys = (c2.event t).Keys) ∧
    ((c1.event t).Type_ = (c2.event t).Type_ →
      c1.overload = c2.overload ∨
        (c1.event t).Type_ = GDK_EVENT_NAMESPACE ++ "recieve_command_request" ∨
        (c1.event t).Type_ = GDK_EVENT_NAMESPACE ++ "recieve_command_response") :=
  ⟨fun h => (StaticCall_same_overload t c1 c2 h).1,
    fun h hp => (StaticCall_same_overload t c1 c2 h).2 hp, StaticCall_same_tag t c1 c2⟩

/-- Two calls of `ComponentUpdate` with different actors and ids give the same
tag and the same six keys. -/
theorem catalog_keys_fixed_per_static_function_witness :
    (StaticCall.event exampleTexts
        (.ComponentUpdate (some examplePawn) (some exampleTurret) 7 3)).Keys
        = ["Object", "ObjectPosition", "TargetObject", "TargetObjectPosition", "EntityId",
            "ComponentId"] ∧
      (StaticCall.event exampleTexts
        (.ComponentUpdate (some examplePawn) (some exampleTurret) 7 3)).Keys
        = (StaticCall.event exampleTexts
            (.ComponentUpdate (some exampleTurret) (some examplePawn) 8 4)).Keys :=
  ⟨by decide,
    (catalog_keys_fixed_per_static_function exampleTexts
      (.ComponentUpdate (some examplePawn) (some exampleTurret) 7 3)
      (.ComponentUpdate (some exampleTurret) (some examplePawn) 8 4)).2.1 rfl rfl⟩

/-- C14, evaluated on the code. The span ids with first bytes `0x01`, `0x10` and
`0x11`, `0x00` (all other bytes zero) are different, and `SpanIdToString`
returns the same string for both. -/
theorem SpanIdToString_collision :
    collidingSpanIdA ≠ collidingSpanIdB ∧
      SpanIdToString collidingSpanIdA = "11000000000000000" ∧
      SpanIdToString collidingSpanIdB = "11000000000000000" := by
  decide

/-- C15. `Disable` leaves the registration slot empty on whichever tracer object
it is called. When tracer `A` is enabled, then another tracer `B` (which
takes the slot), then `A` is disabled, the slot is empty although `B` is
still enabled, and any number of callbacks after that leaves the world, and
so the byte counter of `B`, exactly as it was. -/
theorem Disable_of_replaced_tracer_empties_slot (env : Env) (w : World) (A B : Nat)
    (FileNameA NowA : String) (DirOkA : Bool) (FileNameB NowB : String) (DirOkB : Bool)
    (hAB : A ≠ B) (Items : List Trace_Item) :
    (∀ (v : World) (self : Nat), (Disable v self).Guard = none) ∧
      (Enable env (Enable env w A FileNameA NowA DirOkA) B FileNameB NowB DirOkB).Guard
        = some B ∧
      (enableBothDisableFirst env w A B FileNameA NowA DirOkA FileNameB NowB DirOkB).Guard
        = none ∧
      ((enableBothDisableFirst env w A B FileNameA NowA DirOkA FileNameB NowB DirOkB).Tracers
        B).bEnabled = true ∧
      run env (enableBothDisableFirst env w A B FileNameA NowA DirOkA FileNameB NowB DirOkB)
          (Items.map Step.TraceCallback)
        = enableBothDisableFirst env w A B FileNameA NowA DirOkA FileNameB NowB DirOkB ∧
      ((run env (enableBothDisableFirst env w A B FileNameA NowA DirOkA FileNameB NowB DirOkB)
          (Items.map Step.TraceCallback)).Tracers B).BytesWrittenToStream
        = ((enableBothDisableFirst env w A B FileNameA NowA DirOkA FileNameB NowB
            DirOkB).Tracers B).BytesWrittenToStream := by
  have hG : (enableBothDisableFirst env w A B FileNameA NowA DirOkA FileNameB NowB DirOkB).Guard
      = none := Disable_Guard _ _
  have hR := run_callbacks_unregistered env Items _ hG
  refine ⟨fun v self => Disable_Guard v self, Enable_Guard _ _ _ _ _ _, hG, ?_, hR, by rw [hR]⟩
  have hBA : ¬ B = A := fun h => hAB h.symm
  simp [enableBothDisableFirst, Disable_Tracers, hBA,
    (Enable_registers_and_enables env (Enable env w A FileNameA NowA DirOkA) B FileNameB NowB
      DirOkB).2]

/-- Tracer objects 0 and 1 of the fresh world: after enabling 0, enabling 1 and
disabling 0, tracer 1 is enabled with an open stream, no tracer is registered,
and two callbacks change nothing. -/
theorem Disable_of_replaced_tracer_empties_slot_witness :
    ((enableBothDisableFirst exampleEnv freshWorld 0 1 "a" "now" true "b" "now" true).Tracers
        1).Stream = some 4 ∧
      (enableBothDisableFirst exampleEnv freshWorld 0 1 "a" "now" true "b" "now" true).Guard
        = none ∧
      ((enableBothDisableFirst exampleEnv freshWorld 0 1 "a" "now" true "b" "now" true).Tracers
        1).bEnabled = true ∧
      run exampleEnv
          (enableBothDisableFirst exampleEnv freshWorld 0 1 "a" "now" true "b" "now" true)
          ([.other 0, .other 1].map Step.TraceCallback)
        = enableBothDisableFirst exampleEnv freshWorld 0 1 "a" "now" true "b" "now" true :=
  ⟨by decide,
    (Disable_of_replaced_tracer_empties_slot exampleEnv freshWorld 0 1 "a" "now" true "b" "now"
      true (by decide) [.other 0, .other 1]).2.2.1,
    (Disable_of_replaced_tracer_empties_slot exampleEnv freshWorld 0 1 "a" "now" true "b" "now"
      true (by decide) [.other 0, .other 1]).2.2.2.1,
    (Disable_of_replaced_tracer_empties_slot exampleEnv freshWorld 0 1 "a" "now" true "b" "now"
      true (by decide) [.other 0, .other 1]).2.2.2.2.1⟩

/-- C11, amended. In every tracer state, after `Enable` the tracer is the
registered one and `IsEnabled()` is true, and `Enable` leaves
`BytesWrittenToStream` and `MaxFileSize` as they were. The byte counter is 0
after the `Enable` the constructor makes, with tracing enabled in the settings,
on an object whose counter is 0 from its initialiser. -/
theorem Enable_registers_and_keeps_byte_count (env : Env) (w : World) (self : Nat)
    (FileName Now : String) (DirOk : Bool) :
    (Enable env w self FileName Now DirOk).Guard = some self ∧
      ((Enable env w self FileName Now DirOk).Tracers self).bEnabled = true ∧
      ((Enable env w self FileName Now DirOk).Tracers self).BytesWrittenToStream
        = (w.Tracers self).BytesWrittenToStream ∧
      ((Enable env w self FileName Now DirOk).Tracers self).MaxFileSize
        = (w.Tracers self).MaxFileSize ∧
      (∀ S : USpatialGDKSettings, S.bEventTracingEnabled = true →
        (w.Tracers self).BytesWrittenToStream = 0 →
        (SpatialEventTracer.construct env w self FileName (some S) Now DirOk).Guard = some self ∧
          ((SpatialEventTracer.construct env w self FileName (some S) Now DirOk).Tracers
            self).bEnabled = true ∧
          ((SpatialEventTracer.construct env w self FileName (some S) Now DirOk).Tracers
            self).BytesWrittenToStream = 0) := by
  refine ⟨Enable_Guard _ _ _ _ _ _, (Enable_registers_and_enables _ _ _ _ _ _).2,
    Enable_keeps_BytesWrittenToStream _ _ _ _ _ _ _, ?_, fun S hS h0 => ?_⟩
  · rw [Enable_Tracers]; simp
  · have h := construct_enabled env w self FileName Now DirOk S hS h0
    exact ⟨h.1, h.2.1, h.2.2.2⟩

/-- The constructor on a new object of the fresh world, with tracing enabled
and a maximum file size of 1000: the tracer is registered and enabled and its
byte counter is 0. -/
theorem Enable_registers_and_keeps_byte_count_witness :
    (freshWorld.Tracers 0).BytesWrittenToStream = 0 ∧
      (SpatialEventTracer.construct exampleEnv freshWorld 0 "worker" (some ⟨true, 1000⟩) "now"
        true).Guard = some 0 ∧
      ((SpatialEventTracer.construct exampleEnv freshWorld 0 "worker" (some ⟨true, 1000⟩) "now"
        true).Tracers 0).bEnabled = true ∧
      ((SpatialEventTracer.construct exampleEnv freshWorld 0 "worker" (some ⟨true, 1000⟩) "now"
        true).Tracers 0).BytesWrittenToStream = 0 :=
  ⟨rfl,
    (Enable_registers_and_keeps_byte_count exampleEnv freshWorld 0 "worker" "now" true).2.2.2.2
      ⟨true, 1000⟩ rfl rfl⟩

end SpatialGDK
